import Mathlib

/-!
# Discovery responses, route table and proxyless patch of the mesh control plane

A shallow embedding of `pkg/envoy/eds/response.go`, `pkg/envoy/rds/response.go`
and the proxyless patch of `pkg/injector`, of the two catalog functions that
`pkg/catalog/routes_test.go` exercises, and of the Go standard library
functions they rely on (`strings.FieldsFunc`, `strconv.ParseUint`), followed by
theorems about the embedded functions.

Conventions of the embedding:
* a Go `string` is a Lean `String`; the two separators `/` and `|` and the
  decimal digits are ASCII, so splitting and digit tests on code points agree
  with Go's behaviour on the UTF-8 bytes;
* a Go function returning `(T, error)` returns a pair `T × Option Error`,
  `none` standing for the `nil` error; a `nil` slice is the empty list;
* a nullable pointer argument is an `Option`;
* state that a function mutates (a pod passed by pointer, the cluster behind
  the Kubernetes client) is passed in and returned;
* logging calls have no effect on results and are left out.
-/

/-! ## Data model -/

/-- Modelled from the spec: the declaration of `service.MeshService` is not among
the sources. The fields are those of the data model (namespace, name, optional
subdomain, target port), which are also the fields the sources and their tests
name in struct literals. -/
structure MeshService where
  Namespace : String
  Name : String
  Subdomain : String
  TargetPort : Nat
deriving DecidableEq, Repr

/-- The Go zero value `service.MeshService{}`. -/
def MeshService.zero : MeshService :=
  { Namespace := "", Name := "", Subdomain := "", TargetPort := 0 }

/-- The type `identity.ServiceIdentity`, a string type. -/
abbrev ServiceIdentity := String

/-- The type `certificate.CommonName`, a string type. -/
abbrev CommonName := String

/-- Modelled from the spec: the declaration of `endpoint.Endpoint` is not among
the sources; an endpoint is a reachable (address, port). -/
structure Endpoint where
  IP : String
  Port : Nat
deriving DecidableEq, Repr

/-- The two failures of `strconv.ParseUint` on a valid base and bit size
(`strconv.ErrSyntax` and `strconv.ErrRange`). -/
inductive NumError where
  | syntaxError
  | rangeError
deriving DecidableEq, Repr

/-- Error values. One constructor for each `errors.Errorf` call of the package,
carrying the arguments of the format string, and one for errors produced by
code outside the package. -/
inductive Error where
  | invalidClusterName (cluster : String)
  | invalidClusterPort (chunk : String) (err : NumError)
  | nilRequest (proxyIdentity : ServiceIdentity)
  | external (msg : String)
deriving DecidableEq, Repr

/-! ## Go standard library -/

namespace strings

/-- The scanning loop of `strings.FieldsFunc`. `start` is the field being read
(`none` when Go's `start` is negative, otherwise the characters from index
`start` up to the current position) and `spans` the fields recorded so far.
The final clause is the code after the loop: the last field may end at the end
of the input. -/
def FieldsFunc.loop (f : Char → Bool) :
    List Char → Option (List Char) → List String → List String
  | [], none, spans => spans
  | [], some cur, spans => spans ++ [String.mk cur]
  | r :: rest, start, spans =>
    if f r then
      match start with
      | some cur => FieldsFunc.loop f rest none (spans ++ [String.mk cur])
      | none => FieldsFunc.loop f rest none spans
    else
      match start with
      | some cur => FieldsFunc.loop f rest (some (cur ++ [r])) spans
      | none => FieldsFunc.loop f rest (some [r]) spans

/-- Go's `strings.FieldsFunc(s, f)`: the maximal runs of code points of `s` that
do not satisfy `f`, in order. -/
def FieldsFunc (s : String) (f : Char → Bool) : List String :=
  FieldsFunc.loop f s.data none []

end strings

namespace strconv

/-- The value of one byte as a digit, as in the `switch` of `ParseUint`:
`'0'..'9'` are 0..9, letters are 10..35 (`lower(c)` is `c | 0x20`), anything
else is no digit. The case `c == '_' && base0` cannot occur for a non-zero
base. -/
def digitOf (c : Char) : Option Nat :=
  if 48 ≤ c.toNat ∧ c.toNat ≤ 57 then some (c.toNat - 48)
  else if 97 ≤ (c.toNat ||| 32) ∧ (c.toNat ||| 32) ≤ 122 then some ((c.toNat ||| 32) - 97 + 10)
  else none

/-- The digit loop of `strconv.ParseUint`, `n` being the value accumulated so
far (a `uint64`). -/
def ParseUint.loop (base cutoff maxVal : Nat) : List Char → Nat → Nat × Option NumError
  | [], n => (n, none)
  | c :: rest, n =>
    match digitOf c with
    | none => (0, some NumError.syntaxError)
    | some d =>
      if d ≥ base then (0, some NumError.syntaxError)
      else if n ≥ cutoff then (maxVal, some NumError.rangeError)
      else
        let n := (n * base) % 2 ^ 64
        let n1 := (n + d) % 2 ^ 64
        if n1 < n ∨ n1 > maxVal then (maxVal, some NumError.rangeError)
        else ParseUint.loop base cutoff maxVal rest n1

/-- Go's `strconv.ParseUint(s, base, bitSize)` for an explicit base (2..36) and
an explicit bit size (1..64), which is how the package calls it (base 10,
16 bits). The empty string is a syntax error; `cutoff` is the smallest number
such that `cutoff * base` exceeds the largest `uint64`. -/
def ParseUint (s : String) (base bitSize : Nat) : Nat × Option NumError :=
  if s = "" then (0, some NumError.syntaxError)
  else ParseUint.loop base ((2 ^ 64 - 1) / base + 1) (2 ^ bitSize - 1) s.data 0

end strconv

/-! ## Decimal numerals

The vocabulary in which the port part of a cluster name is specified. -/

namespace strconv

/-- A decimal digit character, `'0'..'9'`. -/
def isDecDigit (c : Char) : Prop := 48 ≤ c.toNat ∧ c.toNat ≤ 57

instance (c : Char) : Decidable (isDecDigit c) := by
  unfold isDecDigit; infer_instance

/-- The value of a digit string read from the left, starting from `n`. -/
def decValFrom (n : Nat) (cs : List Char) : Nat :=
  cs.foldl (fun n c => n * 10 + (c.toNat - 48)) n

end strconv

/-- An unsigned decimal numeral: at least one character, digits only, no
sign. -/
def isDecimalNumeral (s : String) : Prop :=
  s.data ≠ [] ∧ ∀ c ∈ s.data, strconv.isDecDigit c

instance (s : String) : Decidable (isDecimalNumeral s) := by
  unfold isDecimalNumeral; infer_instance

/-- The number a decimal numeral denotes. -/
def decimalValue (s : String) : Nat := strconv.decValFrom 0 s.data

/-- A string that contains neither `/` nor `|`. -/
def noSeparator (s : String) : Prop := ∀ c ∈ s.data, c ≠ '/' ∧ c ≠ '|'

instance (s : String) : Decidable (noSeparator s) := by
  unfold noSeparator; infer_instance

/-- The decimal representation of a number, as `%d` or `strconv.Itoa` print
it. -/
def decimal (p : Nat) : String := Nat.repr p

/-- A Go map, as the list of its entries; each key occurs once. -/
abbrev GoMap (κ ν : Type) := List (κ × ν)

/-- The assignment `m[k] = v`: replaces the value of an existing key, adds a
new entry otherwise. -/
def GoMap.set {κ ν : Type} [DecidableEq κ] : GoMap κ ν → κ → ν → GoMap κ ν
  | [], k, v => [(k, v)]
  | (k', v') :: rest, k, v =>
    if k' = k then (k, v) :: rest else (k', v') :: GoMap.set rest k v

/-- The order in which one execution of a `range` statement visits the entries
of a map. The Go language does not specify it and the runtime randomises it:
all that is known is that every entry is visited exactly once. Each execution
of the statement comes with its own order. -/
structure RangeOrder where
  visit : {α : Type} → List α → List α
  perm : ∀ {α : Type} (l : List α), (visit l).Perm l

/-- The order in which the entries were added. -/
def RangeOrder.stored : RangeOrder :=
  { visit := fun l => l, perm := fun l => List.Perm.refl l }

/-- The opposite order. -/
def RangeOrder.reversed : RangeOrder :=
  { visit := fun l => l.reverse, perm := fun l => List.reverse_perm l }

/-! ## Collaborators of package `eds` -/

/-- The methods of `catalog.MeshCataloger` that package `eds` calls. Catalog
queries are functions of the catalog state. -/
structure MeshCataloger where
  ListOutboundServicesForIdentity : ServiceIdentity → List MeshService
  ListAllowedUpstreamEndpointsForService : ServiceIdentity → MeshService → List Endpoint

/-- Modelled from the spec: the declaration of `envoy.Proxy` is not among the
sources. The fields are what the sources read from a proxy: the `Identity`
field and the value of the method `GetCertificateCommonName()`. -/
structure Proxy where
  Identity : ServiceIdentity
  CertificateCommonName : CommonName
deriving DecidableEq, Repr

/-- The part of `xds_discovery.DiscoveryRequest` that the package reads. -/
structure DiscoveryRequest where
  ResourceNames : List String
deriving DecidableEq, Repr

/-- Functions of the repository that package `eds` calls and whose bodies are
not among the sources, taken as parameters: the decoding of a service identity
from a certificate common name (package `envoy`) and the construction of the
load assignment of a service from its endpoints (`Resource` is the type
`types.Resource`). -/
structure Externals (Resource : Type) where
  GetServiceIdentityFromProxyCertificate : CommonName → ServiceIdentity × Option Error
  newClusterLoadAssignment : MeshService → List Endpoint → Resource

/-! ## Package `eds` -/

namespace eds

/-- The `splitFunc` closure of `clusterToMeshSvc`. -/
def splitFunc (r : Char) : Bool := r == '/' || r == '|'

/-- The function `clusterToMeshSvc` of `pkg/envoy/eds/response.go`: the
MeshService associated with the given cluster name. -/
def clusterToMeshSvc (cluster : String) : MeshService × Option Error :=
  match strings.FieldsFunc cluster splitFunc with
  | [c0, c1, c2] =>
    match strconv.ParseUint c2 10 16 with
    | (_, some err) => (MeshService.zero, some (Error.invalidClusterPort c2 err))
    | (port, none) =>
      ({ Namespace := c0, Name := c1, Subdomain := "", TargetPort := port % 2 ^ 16 }, none)
  | _ => (MeshService.zero, some (Error.invalidClusterName cluster))

/-- The function `getUpstreamEndpointsForProxyIdentity`: the endpoints of the
allowed upstream services of the proxy, keyed by service; services without
endpoints are skipped. -/
def getUpstreamEndpointsForProxyIdentity (meshCatalog : MeshCataloger)
    (proxyIdentity : ServiceIdentity) : GoMap MeshService (List Endpoint) × Option Error :=
  ((meshCatalog.ListOutboundServicesForIdentity proxyIdentity).foldl
    (fun allowedServicesEndpoints dstSvc =>
      let endpoints := meshCatalog.ListAllowedUpstreamEndpointsForService proxyIdentity dstSvc
      if endpoints.length = 0 then allowedServicesEndpoints
      else GoMap.set allowedServicesEndpoints dstSvc endpoints)
    [], none)

/-- The function `fulfillEDSRequest`: replies only to the endpoints requested on
the discovery request. -/
def fulfillEDSRequest {Resource : Type} (ext : Externals Resource) (meshCatalog : MeshCataloger)
    (proxy : Proxy) (request : Option DiscoveryRequest) : List Resource × Option Error :=
  match ext.GetServiceIdentityFromProxyCertificate proxy.CertificateCommonName with
  | (_, some err) => ([], some err)
  | (proxyIdentity, none) =>
    match request with
    | none => ([], some (Error.nilRequest proxyIdentity))
    | some request =>
      (request.ResourceNames.foldl
        (fun rdsResources cluster =>
          match clusterToMeshSvc cluster with
          | (_, some _) => rdsResources
          | (meshSvc, none) =>
            let endpoints :=
              meshCatalog.ListAllowedUpstreamEndpointsForService proxyIdentity meshSvc
            if endpoints.length = 0 then rdsResources
            else rdsResources ++ [ext.newClusterLoadAssignment meshSvc endpoints])
        [], none)

/-- The function `generateEDSConfig`: all endpoints expected for a given proxy.
`order` is the order in which this execution ranges over the map of allowed
endpoints. -/
def generateEDSConfig {Resource : Type} (ext : Externals Resource) (order : RangeOrder)
    (meshCatalog : MeshCataloger) (proxy : Proxy) : List Resource × Option Error :=
  match ext.GetServiceIdentityFromProxyCertificate proxy.CertificateCommonName with
  | (_, some err) => ([], some err)
  | (proxyIdentity, none) =>
    match getUpstreamEndpointsForProxyIdentity meshCatalog proxyIdentity with
    | (_, some err) => ([], some err)
    | (allowedEndpoints, none) =>
      ((order.visit allowedEndpoints).foldl
        (fun edsResources entry =>
          edsResources ++ [ext.newClusterLoadAssignment entry.1 entry.2])
        [], none)

/-- The function `NewResponse`: a new endpoint discovery response. The three
unused parameters of the Go function are left out. -/
def NewResponse {Resource : Type} (ext : Externals Resource) (order : RangeOrder)
    (meshCatalog : MeshCataloger) (proxy : Proxy) (request : Option DiscoveryRequest) :
    List Resource × Option Error :=
  match request with
  | some r =>
    if r.ResourceNames.length > 0 then fulfillEDSRequest ext meshCatalog proxy request
    else generateEDSConfig ext order meshCatalog proxy
  | none => generateEDSConfig ext order meshCatalog proxy

end eds

/-! ## Example inputs -/

namespace example_inputs

/-- The service `default/bookstore-v1` on port 80. -/
def bookstoreV1 : MeshService :=
  { Namespace := "default", Name := "bookstore-v1", Subdomain := "", TargetPort := 80 }

/-- The service `default/bookstore-v2` on port 80. -/
def bookstoreV2 : MeshService :=
  { Namespace := "default", Name := "bookstore-v2", Subdomain := "", TargetPort := 80 }

/-- The service `default/bookstore-apex` on port 80; it has no endpoints in
the example catalog. -/
def bookstoreApex : MeshService :=
  { Namespace := "default", Name := "bookstore-apex", Subdomain := "", TargetPort := 80 }

/-- A catalog in which every identity may reach the three bookstore services;
the two versioned ones have one endpoint each. -/
def catalog : MeshCataloger :=
  { ListOutboundServicesForIdentity := fun _ => [bookstoreV1, bookstoreApex, bookstoreV2, bookstoreV1],
    ListAllowedUpstreamEndpointsForService := fun _ svc =>
      if svc = bookstoreV1 then [{ IP := "8.8.8.8", Port := 8888 }]
      else if svc = bookstoreV2 then [{ IP := "9.9.9.9", Port := 8888 }]
      else [] }

/-- Externals for the examples: the identity is the common name itself, the
empty common name does not decode, and a load assignment is the pair of the
service and its endpoints. -/
def externals : Externals (MeshService × List Endpoint) :=
  { GetServiceIdentityFromProxyCertificate := fun cn =>
      if cn = "" then ("", some (Error.external "invalid certificate CN")) else (cn, none),
    newClusterLoadAssignment := fun svc endpoints => (svc, endpoints) }

/-- The proxy of the bookbuyer. -/
def bookbuyer : Proxy :=
  { Identity := "bookbuyer.default", CertificateCommonName := "bookbuyer.default" }

end example_inputs

/-! ## Tokens of a cluster name -/

namespace example_inputs

/-- A proxy whose certificate common name does not decode to an identity. -/
def stranger : Proxy :=
  { Identity := "", CertificateCommonName := "" }

end example_inputs

/-! ## Package `rds` -/

namespace rds

/-- The part of `trafficpolicy.InboundMeshTrafficPolicy` that the package reads;
`InboundRoutes` is the type of the field. -/
structure InboundMeshTrafficPolicy (InboundRoutes : Type) where
  HTTPRouteConfigsPerPort : InboundRoutes

/-- The part of `trafficpolicy.OutboundMeshTrafficPolicy` that the package reads. -/
structure OutboundMeshTrafficPolicy (OutboundRoutes : Type) where
  HTTPRouteConfigsPerPort : OutboundRoutes

/-- The part of `trafficpolicy.IngressTrafficPolicy` that the package reads;
`InboundPolicy` is the type `*trafficpolicy.InboundTrafficPolicy`. -/
structure IngressTrafficPolicy (InboundPolicy : Type) where
  HTTPRoutePolicies : List InboundPolicy

/-- The part of `trafficpolicy.EgressTrafficPolicy` that the package reads. -/
structure EgressTrafficPolicy (EgressRoutes : Type) where
  HTTPRouteConfigsPerPort : EgressRoutes

/-- The feature flags of the mesh configuration that the package reads. -/
structure FeatureFlags where
  EnableWASMStats : Bool

/-- The `Spec` of the mesh configuration. -/
structure MeshConfigSpec where
  FeatureFlags : FeatureFlags

/-- The mesh configuration returned by `GetMeshConfig()`. -/
structure MeshConfig where
  Spec : MeshConfigSpec

/-- The methods of `catalog.MeshCataloger` that package `rds` calls. A method
returning a pointer and an error returns a pair, the pointer being `none`
when it is nil. -/
structure MeshCataloger (InboundRoutes OutboundRoutes InboundPolicy EgressRoutes : Type) where
  ListServicesForProxy : Proxy → List MeshService × Option Error
  GetMeshConfig : MeshConfig
  GetProxyStatsHeaders : Proxy → GoMap String String × Option Error
  GetInboundMeshTrafficPolicy :
    ServiceIdentity → List MeshService → Option (InboundMeshTrafficPolicy InboundRoutes)
  GetOutboundMeshTrafficPolicy :
    ServiceIdentity → Option (OutboundMeshTrafficPolicy OutboundRoutes)
  GetIngressTrafficPolicy :
    MeshService → Option (IngressTrafficPolicy InboundPolicy) × Option Error
  GetEgressTrafficPolicy :
    ServiceIdentity → Option (EgressTrafficPolicy EgressRoutes) × Option Error

/-- The part of `certificate.Manager` that the package reads: the value of
`GetTrustDomain()`. -/
structure Manager where
  GetTrustDomain : String

/-- Functions of the repository that package `rds` calls and whose bodies are
not among the sources, taken as parameters: the four builders of package
`route` and `trafficpolicy.MergeInboundPolicies` (its variadic second argument
is a list). `Resource` is the type of a route configuration. -/
structure Builders (InboundRoutes OutboundRoutes InboundPolicy EgressRoutes Resource : Type) where
  BuildInboundMeshRouteConfiguration :
    InboundRoutes → Proxy → GoMap String String → String → List Resource
  BuildOutboundMeshRouteConfiguration : OutboundRoutes → List Resource
  BuildIngressConfiguration : List InboundPolicy → String → Resource
  BuildEgressRouteConfiguration : EgressRoutes → List Resource
  MergeInboundPolicies : List InboundPolicy → List InboundPolicy → List InboundPolicy

section
variable {InboundRoutes OutboundRoutes InboundPolicy EgressRoutes Resource : Type}

/-- The loop of `NewResponse` that computes the local variable
`ingressTrafficPolicies`: the ingress policies of the services of the proxy,
merged one service after the other; a service whose lookup fails or that has
no ingress policy is skipped. -/
def NewResponse.ingressTrafficPolicies
    (b : Builders InboundRoutes OutboundRoutes InboundPolicy EgressRoutes Resource)
    (cataloger : MeshCataloger InboundRoutes OutboundRoutes InboundPolicy EgressRoutes)
    (proxyServices : List MeshService) : List InboundPolicy :=
  proxyServices.foldl
    (fun ingressTrafficPolicies svc =>
      match cataloger.GetIngressTrafficPolicy svc with
      | (_, some _) => ingressTrafficPolicies
      | (none, none) => ingressTrafficPolicies
      | (some ingressPolicy, none) =>
        b.MergeInboundPolicies ingressTrafficPolicies ingressPolicy.HTTPRoutePolicies)
    []

/-- The function `NewResponse` of `pkg/envoy/rds/response.go`: a new route
discovery response. The unused registry parameter is left out. -/
def NewResponse
    (b : Builders InboundRoutes OutboundRoutes InboundPolicy EgressRoutes Resource)
    (cataloger : MeshCataloger InboundRoutes OutboundRoutes InboundPolicy EgressRoutes)
    (proxy : Proxy) (cm : Manager) : List Resource × Option Error :=
  match cataloger.ListServicesForProxy proxy with
  | (_, some err) => ([], some err)
  | (proxyServices, none) =>
    let rdsResources : List Resource := []
    let trustDomain := cm.GetTrustDomain
    let statsHeaders : GoMap String String :=
      if cataloger.GetMeshConfig.Spec.FeatureFlags.EnableWASMStats then
        (cataloger.GetProxyStatsHeaders proxy).1
      else []
    -- inbound mesh route configurations
    let rdsResources :=
      match cataloger.GetInboundMeshTrafficPolicy proxy.Identity proxyServices with
      | some inboundMeshTrafficPolicy =>
        (b.BuildInboundMeshRouteConfiguration inboundMeshTrafficPolicy.HTTPRouteConfigsPerPort
          proxy statsHeaders trustDomain).foldl (fun acc config => acc ++ [config]) rdsResources
      | none => rdsResources
    -- outbound mesh route configurations
    let rdsResources :=
      match cataloger.GetOutboundMeshTrafficPolicy proxy.Identity with
      | some outboundMeshTrafficPolicy =>
        (b.BuildOutboundMeshRouteConfiguration
          outboundMeshTrafficPolicy.HTTPRouteConfigsPerPort).foldl
            (fun acc config => acc ++ [config]) rdsResources
      | none => rdsResources
    -- ingress route configuration
    let ingressTrafficPolicies := NewResponse.ingressTrafficPolicies b cataloger proxyServices
    let rdsResources :=
      if ingressTrafficPolicies.length > 0 then
        rdsResources ++ [b.BuildIngressConfiguration ingressTrafficPolicies trustDomain]
      else rdsResources
    -- egress route configurations; the error is only logged
    let rdsResources :=
      match (cataloger.GetEgressTrafficPolicy proxy.Identity).1 with
      | some egressTrafficPolicy =>
        (b.BuildEgressRouteConfiguration egressTrafficPolicy.HTTPRouteConfigsPerPort).foldl
          (fun acc egressConfig => acc ++ [egressConfig]) rdsResources
      | none => rdsResources
    (rdsResources, none)

/-! The four resource groups of a route response, as the route builder is
specified: each group is empty when its policy is missing. -/

/-- The stats headers handed to the inbound builder. -/
def statsHeadersOf
    (cataloger : MeshCataloger InboundRoutes OutboundRoutes InboundPolicy EgressRoutes)
    (proxy : Proxy) : GoMap String String :=
  if cataloger.GetMeshConfig.Spec.FeatureFlags.EnableWASMStats then
    (cataloger.GetProxyStatsHeaders proxy).1
  else []

/-- The inbound-mesh group. -/
def inboundGroup
    (b : Builders InboundRoutes OutboundRoutes InboundPolicy EgressRoutes Resource)
    (cataloger : MeshCataloger InboundRoutes OutboundRoutes InboundPolicy EgressRoutes)
    (proxy : Proxy) (cm : Manager) (proxyServices : List MeshService) : List Resource :=
  match cataloger.GetInboundMeshTrafficPolicy proxy.Identity proxyServices with
  | none => []
  | some policy =>
    b.BuildInboundMeshRouteConfiguration policy.HTTPRouteConfigsPerPort proxy
      (statsHeadersOf cataloger proxy) cm.GetTrustDomain

/-- The outbound-mesh group. -/
def outboundGroup
    (b : Builders InboundRoutes OutboundRoutes InboundPolicy EgressRoutes Resource)
    (cataloger : MeshCataloger InboundRoutes OutboundRoutes InboundPolicy EgressRoutes)
    (proxy : Proxy) : List Resource :=
  match cataloger.GetOutboundMeshTrafficPolicy proxy.Identity with
  | none => []
  | some policy => b.BuildOutboundMeshRouteConfiguration policy.HTTPRouteConfigsPerPort

/-- The route policies that a service contributes to the ingress merge: those of
its ingress policy, if the lookup succeeds and there is one. -/
def ingressContribution
    (cataloger : MeshCataloger InboundRoutes OutboundRoutes InboundPolicy EgressRoutes)
    (svc : MeshService) : Option (List InboundPolicy) :=
  if (cataloger.GetIngressTrafficPolicy svc).2 = none then
    (cataloger.GetIngressTrafficPolicy svc).1.map (fun policy => policy.HTTPRoutePolicies)
  else none

/-- The merged ingress policy list: the left fold of `MergeInboundPolicies`,
from the empty list, over the contributions of the services in order. -/
def mergedIngressPolicies
    (b : Builders InboundRoutes OutboundRoutes InboundPolicy EgressRoutes Resource)
    (cataloger : MeshCataloger InboundRoutes OutboundRoutes InboundPolicy EgressRoutes)
    (proxyServices : List MeshService) : List InboundPolicy :=
  (proxyServices.filterMap (ingressContribution cataloger)).foldl b.MergeInboundPolicies []

/-- The ingress group: one route configuration if the merged list is not empty. -/
def ingressGroup
    (b : Builders InboundRoutes OutboundRoutes InboundPolicy EgressRoutes Resource)
    (cataloger : MeshCataloger InboundRoutes OutboundRoutes InboundPolicy EgressRoutes)
    (cm : Manager) (proxyServices : List MeshService) : List Resource :=
  if (mergedIngressPolicies b cataloger proxyServices).length = 0 then []
  else [b.BuildIngressConfiguration (mergedIngressPolicies b cataloger proxyServices)
    cm.GetTrustDomain]

/-- The egress group. -/
def egressGroup
    (b : Builders InboundRoutes OutboundRoutes InboundPolicy EgressRoutes Resource)
    (cataloger : MeshCataloger InboundRoutes OutboundRoutes InboundPolicy EgressRoutes)
    (proxy : Proxy) : List Resource :=
  match (cataloger.GetEgressTrafficPolicy proxy.Identity).1 with
  | none => []
  | some policy => b.BuildEgressRouteConfiguration policy.HTTPRouteConfigsPerPort

/-- The cataloger whose egress lookup finds no egress configuration and reports
no error, everything else as in `cataloger`. -/
def withoutEgress
    (cataloger : MeshCataloger InboundRoutes OutboundRoutes InboundPolicy EgressRoutes) :
    MeshCataloger InboundRoutes OutboundRoutes InboundPolicy EgressRoutes :=
  { cataloger with GetEgressTrafficPolicy := fun _ => (none, none) }

end

end rds

namespace example_inputs

/-- Builders for the examples: policies and route configurations are strings;
merging appends the new policies that are not yet in the list. -/
def builders : rds.Builders String String String String String :=
  { BuildInboundMeshRouteConfiguration := fun routes _ _ trustDomain =>
      ["inbound:" ++ routes ++ "@" ++ trustDomain],
    BuildOutboundMeshRouteConfiguration := fun routes => ["outbound:" ++ routes],
    BuildIngressConfiguration := fun policies trustDomain =>
      "ingress:" ++ String.intercalate "," policies ++ "@" ++ trustDomain,
    BuildEgressRouteConfiguration := fun routes => ["egress:" ++ routes],
    MergeInboundPolicies := fun policies extra =>
      policies ++ extra.filter (fun p => p ∉ policies) }

/-- A cataloger for the bookbuyer: two services with ingress policies, one
service without, one whose ingress lookup fails, and all four kinds of
policy. -/
def routeCatalog : rds.MeshCataloger String String String String :=
  { ListServicesForProxy := fun _ =>
      ([bookstoreV1, bookstoreApex, bookstoreV2,
        { Namespace := "default", Name := "broken", Subdomain := "", TargetPort := 80 }], none),
    GetMeshConfig := { Spec := { FeatureFlags := { EnableWASMStats := false } } },
    GetProxyStatsHeaders := fun _ => ([], none),
    GetInboundMeshTrafficPolicy := fun _ _ => some { HTTPRouteConfigsPerPort := "in" },
    GetOutboundMeshTrafficPolicy := fun _ => some { HTTPRouteConfigsPerPort := "out" },
    GetIngressTrafficPolicy := fun svc =>
      if svc = bookstoreV1 then (some { HTTPRoutePolicies := ["p1", "p2"] }, none)
      else if svc = bookstoreV2 then (some { HTTPRoutePolicies := ["p2", "p3"] }, none)
      else if svc = bookstoreApex then (none, none)
      else (some { HTTPRoutePolicies := ["p4"] }, some (Error.external "ingress lookup failed")),
    GetEgressTrafficPolicy := fun _ => (some { HTTPRouteConfigsPerPort := "eg" }, none) }

/-- The same cataloger, whose egress lookup returns an error and no policy. -/
def routeCatalogEgressError : rds.MeshCataloger String String String String :=
  { routeCatalog with
    GetEgressTrafficPolicy := fun _ => (none, some (Error.external "egress lookup failed")) }

/-- The same cataloger, whose egress lookup returns an error together with a
policy. -/
def routeCatalogEgressBoth : rds.MeshCataloger String String String String :=
  { routeCatalog with
    GetEgressTrafficPolicy := fun _ =>
      (some { HTTPRouteConfigsPerPort := "eg" }, some (Error.external "egress lookup failed")) }

/-- The same cataloger, which cannot list the services of a proxy. -/
def routeCatalogNoServices : rds.MeshCataloger String String String String :=
  { routeCatalog with
    ListServicesForProxy := fun _ => ([], some (Error.external "cannot list services")) }

/-- The certificate manager of the examples. -/
def manager : rds.Manager := { GetTrustDomain := "cluster.local" }

end example_inputs

/-! ## Package `catalog`: the route table and the traffic policies per route

The two functions below are exercised by `pkg/catalog/routes_test.go`; their
bodies are not among the sources. -/

/-- The index expression `m[k]` on a Go map: the value stored under `k`, or the
zero value of the value type when the key is absent. -/
def GoMap.index {κ ν : Type} [DecidableEq κ] (m : GoMap κ ν) (k : κ) (zero : ν) : ν :=
  match m.find? (fun e => e.1 = k) with
  | some e => e.2
  | none => zero

namespace catalog

/-- Modelled from the spec: the declaration of `trafficpolicy.Route` is not among
the sources; a route is a path regex, an ordered sequence of methods (nil is
the empty list) and a mapping from header name to match value. -/
structure Route where
  PathRegex : String
  Methods : List String
  Headers : GoMap String String
deriving DecidableEq, Repr

/-- The zero-value Route: empty path regex, nil methods, nil headers. -/
def Route.zero : Route := { PathRegex := "", Methods := [], Headers := [] }

/-- Modelled from the spec: an HTTP match rule declared by a route group: its
name, path, methods and header constraints. -/
structure HTTPMatch where
  Name : String
  PathRegex : String
  Methods : List String
  Headers : GoMap String String
deriving DecidableEq, Repr

/-- Modelled from the spec: a route-group resource: its namespace, its name and
the match rules it declares. -/
structure HTTPRouteGroup where
  Namespace : String
  Name : String
  Matches : List HTTPMatch
deriving DecidableEq, Repr

/-- Modelled from the spec: the key of a match in the route table,
`Kind/Namespace/RouteGroupName/MatchName` with the kind `HTTPRouteGroup`, as
the test builds it with `fmt.Sprintf("HTTPRouteGroup/%s/%s/%s", ...)`. -/
def routeKey (ns routeGroup matchName : String) : String :=
  "HTTPRouteGroup/" ++ ns ++ "/" ++ routeGroup ++ "/" ++ matchName

/-- Modelled from the spec: the Route of a match rule; path, methods and headers
are copied verbatim. -/
def routeOf (m : HTTPMatch) : Route :=
  { PathRegex := m.PathRegex, Methods := m.Methods, Headers := m.Headers }

/-- Modelled from the spec: the body of `getHTTPPathsPerRoute` is not among the
sources. It flattens every declared HTTP match rule across all route-group
resources into a table keyed by `routeKey`. `groups` are the route-group
resources of the mesh. -/
def getHTTPPathsPerRoute (groups : List HTTPRouteGroup) : GoMap String Route × Option Error :=
  (groups.foldl
    (fun routePolicies group =>
      group.Matches.foldl
        (fun routePolicies m =>
          GoMap.set routePolicies (routeKey group.Namespace group.Name m.Name) (routeOf m))
        routePolicies)
    [], none)

/-- A string that contains no `/`. -/
def noSlash (s : String) : Prop := ∀ c ∈ s.data, c ≠ '/'

instance (s : String) : Decidable (noSlash s) := by
  unfold noSlash; infer_instance

/-- The (namespace, route group, match name) triples of the declared matches, in
order of declaration. -/
def matchTriples (groups : List HTTPRouteGroup) : List (String × String × String) :=
  groups.flatMap (fun group => group.Matches.map (fun m => (group.Namespace, group.Name, m.Name)))

/-- The table entries of the declared matches, one per match, in order of
declaration. -/
def matchEntries (groups : List HTTPRouteGroup) : List (String × Route) :=
  groups.flatMap (fun group =>
    group.Matches.map (fun m => (routeKey group.Namespace group.Name m.Name, routeOf m)))

/-- Modelled from the spec: the source or destination of a policy edge, as the
test writes it: service account, namespace and service. -/
structure TrafficResource where
  ServiceAccount : String
  Namespace : String
  Service : MeshService
deriving DecidableEq, Repr

/-- Modelled from the spec: the declaration of `trafficpolicy.TrafficTarget` is
not among the sources; a policy edge with its route. -/
structure TrafficTarget where
  Name : String
  Destination : TrafficResource
  Source : TrafficResource
  Route : Route
deriving DecidableEq, Repr

/-- Modelled from the spec: a raw policy edge: name, source, destination and the
optional route-group/match reference, which is a key of the route table. -/
structure PolicyEdge where
  Name : String
  Destination : TrafficResource
  Source : TrafficResource
  MatchRef : Option String
deriving DecidableEq, Repr

/-- Modelled from the spec: the Route attached to a policy edge: the one looked
up in the route map by the reference of the edge, the zero-value Route if no
reference is present. The lookup is the index expression of a Go map. -/
def attachedRoute (routeMap : GoMap String Route) (edge : PolicyEdge) : Route :=
  match edge.MatchRef with
  | none => Route.zero
  | some key => GoMap.index routeMap key Route.zero

/-- Modelled from the spec: the body of `getTrafficPolicyPerRoute` is not among
the sources. For each raw policy edge whose destination is the given service
it attaches exactly one Route. `edges` are the raw policy edges of the
catalog. -/
def getTrafficPolicyPerRoute (edges : List PolicyEdge) (routeMap : GoMap String Route)
    (service : MeshService) : List TrafficTarget × Option Error :=
  (edges.foldl
    (fun trafficPolicies edge =>
      if edge.Destination.Service = service then
        trafficPolicies ++
          [{ Name := edge.Name, Destination := edge.Destination, Source := edge.Source,
             Route := attachedRoute routeMap edge }]
      else trafficPolicies)
    [], none)

end catalog

namespace example_inputs

/-- The route group `rg` of namespace `ns` with the matches `buy` and `sell`. -/
def routeGroup : catalog.HTTPRouteGroup :=
  { Namespace := "ns", Name := "rg",
    Matches :=
      [{ Name := "buy", PathRegex := "/buy", Methods := ["GET"],
         Headers := [("host", "example.com")] },
       { Name := "sell", PathRegex := "/sell", Methods := ["GET"], Headers := [] }] }

/-- The service of the bookstore. -/
def bookstore : MeshService :=
  { Namespace := "ns", Name := "bookstore", Subdomain := "", TargetPort := 80 }

/-- The service of the bookbuyer. -/
def bookbuyerService : MeshService :=
  { Namespace := "ns", Name := "bookbuyer", Subdomain := "", TargetPort := 80 }

/-- The policy edge from the bookbuyer to the bookstore, without route-group
reference. -/
def bookbuyerToBookstore : catalog.PolicyEdge :=
  { Name := "bookbuyer-access-bookstore",
    Destination := { ServiceAccount := "bookstore", Namespace := "ns", Service := bookstore },
    Source := { ServiceAccount := "bookbuyer", Namespace := "ns", Service := bookbuyerService },
    MatchRef := none }

end example_inputs

/-! ## Package `injector`

The proxyless patch of the mutating webhook (`patch_proxyless.go`,
`grpc_container.go`, `patch.go`). The pod is passed by pointer and mutated in
place, and the Kubernetes client writes to the cluster: both are explicit
here, the function returning the pod and the cluster state it leaves behind.
Metrics and logging are left out. -/

namespace injector

/-- The part of `corev1.VolumeMount` that the package sets. -/
structure VolumeMount where
  Name : String
  MountPath : String
deriving DecidableEq, Repr

/-- The part of `corev1.EnvVar` that the package sets. -/
structure EnvVar where
  Name : String
  Value : String
deriving DecidableEq, Repr

/-- The type `corev1.ResourceRequirements`: limits and requests by resource
name. -/
structure ResourceRequirements where
  Limits : GoMap String String
  Requests : GoMap String String
deriving DecidableEq, Repr

/-- The part of `corev1.Container` that the package sets. -/
structure Container where
  Name : String
  Image : String
  ImagePullPolicy : String
  VolumeMounts : List VolumeMount
  Command : List String
  Resources : ResourceRequirements
  Env : List EnvVar
deriving DecidableEq, Repr

/-- The part of `corev1.Volume` that the package sets: the name and, of the
volume source, the name of the config map (`ConfigMap.LocalObjectReference.Name`)
or of the secret (`Secret.SecretName`), `none` when that pointer is nil. -/
structure Volume where
  Name : String
  ConfigMap : Option String
  Secret : Option String
deriving DecidableEq, Repr

/-- The part of `corev1.PodSpec` that the package reads or writes. -/
structure PodSpec where
  ServiceAccountName : String
  Volumes : List Volume
  InitContainers : List Container
  Containers : List Container
  NodeSelector : GoMap String String
deriving DecidableEq, Repr

/-- The part of `corev1.Pod` that the package reads or writes; `Labels` is `none`
when the map is nil. -/
structure Pod where
  Labels : Option (GoMap String String)
  Spec : PodSpec
deriving DecidableEq, Repr

/-- The part of `admissionv1.AdmissionRequest` that the package reads; `DryRun` is
a pointer to a boolean. -/
structure AdmissionRequest where
  Namespace : String
  DryRun : Option Bool
deriving DecidableEq, Repr

/-- The part of `corev1.ConfigMap` that the package sets. -/
structure ConfigMap where
  Name : String
  Labels : GoMap String String
  Data : GoMap String String
deriving DecidableEq, Repr

/-- The part of `corev1.Secret` that the package sets; byte slices are strings. -/
structure Secret where
  Name : String
  Labels : GoMap String String
  Data : GoMap String String
deriving DecidableEq, Repr

/-- The methods of `certificate.Certificater` that the package calls. -/
structure Certificate where
  GetCertificateChain : String
  GetPrivateKey : String
  GetIssuingCA : String
deriving DecidableEq, Repr

/-- The type `healthProbe`, with the fields that the package's tests set. -/
structure healthProbe where
  path : String
  port : Nat
  isHTTP : Bool
deriving DecidableEq, Repr

/-- The type `healthProbes`: the original probes of a pod, each a pointer. -/
structure healthProbes where
  liveness : Option healthProbe
  readiness : Option healthProbe
  startup : Option healthProbe
deriving DecidableEq, Repr

/-- The type `GrpcBootstrapOptions`, with the fields that
`createGrpcBootstrapConfig` sets. -/
structure GrpcBootstrapOptions where
  NodeID : String
  ServerURI : String
  Version : String
  CertificateProviders : GoMap String String
deriving DecidableEq, Repr

/-- The methods of `configurator.Configurator` that the package calls. -/
structure Configurator where
  GetProxyResources : ResourceRequirements
  GetOutboundPortExclusionList : List Nat
  GetInboundPortExclusionList : List Nat
  GetOutboundIPRangeExclusionList : List String
  IsPrivilegedInitContainer : Bool
deriving DecidableEq, Repr

/-- The calls that the package makes on the Kubernetes client, over a cluster
state `σ`: reading does not change the cluster, updating and creating return
the cluster they leave behind. A successful `Get` returns the object found. -/
structure KubeClient (σ : Type) where
  ConfigMapsGet : σ → String → String → ConfigMap × Option Error
  ConfigMapsUpdate : σ → String → ConfigMap → σ × Option Error
  ConfigMapsCreate : σ → String → ConfigMap → σ × Option Error
  SecretsGet : σ → String → String → Secret × Option Error
  SecretsUpdate : σ → String → Secret → σ × Option Error
  SecretsCreate : σ → String → Secret → σ × Option Error

/-- The part of the certificate manager that the package calls. -/
structure CertManager where
  IssueCertificate : CommonName → Nat → Certificate × Option Error

/-- The fields of `mutatingWebhook` that the package reads. -/
structure mutatingWebhook (σ : Type) where
  kubeClient : KubeClient σ
  certManager : CertManager
  configurator : Configurator
  osmNamespace : String
  meshName : String

/-- Constants of the repository that are declared outside the given sources. -/
structure Constants where
  grpcBootstrapConfigVolume : String
  grpcBootstrapSecretsVolume : String
  outboundPortExclusionListAnnotation : String
  inboundPortExclusionListAnnotation : String
  KindSidecar : String
  XDSCertificateValidityPeriod : Nat
  OSWindows : String
  InitContainerName : String
  GrpcClientContainerName : String
  GrpcClientImage : String
  GRPCUniqueIDLabelName : String
  OSMAppNameLabelKey : String
  OSMAppNameLabelValue : String
  OSMAppInstanceLabelKey : String
  OSMAppVersionLabelKey : String
  Version : String
  OSMControllerName : String
  ADSServerPort : Nat
  TransportV3 : String

/-- Functions that the package calls and whose bodies are not among the sources,
taken as parameters. Of the repository: `NewXDSCertCommonName`,
`rewriteHealthProbes` (it mutates the pod and returns the original probes),
`verifyPrerequisites`, `getPortExclusionListForPod`, `mergePortExclusionLists`,
`getInitContainerSpec`, `GrpcBootstrapContents`, and `makePatches` followed by
`json.Marshal`. Of the Go library: `strings.EqualFold` (equality under Unicode
case folding) and the `%q` verb of `fmt.Sprintf` (`Quote`). -/
structure Externals where
  constants : Constants
  NewXDSCertCommonName : String → String → String → String → CommonName
  rewriteHealthProbes : Pod → Pod × healthProbes
  verifyPrerequisites : String → Option Error
  getPortExclusionListForPod : Pod → String → String → List Nat × Option Error
  mergePortExclusionLists : List Nat → List Nat → List Nat
  getInitContainerSpec :
    String → Configurator → List String → List Nat → List Nat → Bool → Container
  GrpcBootstrapContents : GrpcBootstrapOptions → String × Option Error
  marshalPatches : AdmissionRequest → Pod → String × Option Error
  EqualFold : String → String → Bool
  Quote : String → String

/-- The constant `certFile`. -/
def certFile : String := "cert.oem"

/-- The constant `keyFile`. -/
def keyFile : String := "key.pem"

/-- The constant `rootCAFile`. -/
def rootCAFile : String := "ca.pem"

/-- The constant `grpcBootstrapConfigFile`. -/
def grpcBootstrapConfigFile : String := "bootstrap.json"

/-- The constant `grpcProxyConfigPath`. -/
def grpcProxyConfigPath : String := "/etc/xds-client"

/-- The constant `grpcProxySecretsPath`. -/
def grpcProxySecretsPath : String := "/etc/xds-client-secrets"

/-- The value of `corev1.PullIfNotPresent`. -/
def PullIfNotPresent : String := "IfNotPresent"

/-- Go's `path.Join` on two clean, non-empty elements, which is how the package
calls it: the two joined by a slash. -/
def pathJoin (dir file : String) : String := dir ++ "/" ++ file

/-- The function `getOSMControllerFQDN` of `patch.go`. -/
def getOSMControllerFQDN (ext : Externals) (osmNamespace : String) : String :=
  ext.constants.OSMControllerName ++ "." ++ osmNamespace ++ ".svc.cluster.local"

/-- The function `DefaultFileWatcherConfig`: a default certificate provider
plugin configuration. -/
def DefaultFileWatcherConfig (ext : Externals) (certPath keyPath caPath : String) : String :=
  "\x7b\n\t\t\t\"plugin_name\": \"file_watcher\",\n\t\t\t\"config\": \x7b\n\t\t\t\t\"certificate_file\": "
    ++ ext.Quote certPath ++ ",\n\t\t\t\t\"private_key_file\": " ++ ext.Quote keyPath
    ++ ",\n\t\t\t\t\"ca_certificate_file\": " ++ ext.Quote caPath
    ++ ",\n\t\t\t\t\"refresh_interval\": \"600s\"\n\t\t\t\x7d\n\t\t\x7d"

/-- The function `getGrpcSidecarContainerSpec` of `grpc_container.go`. -/
def getGrpcSidecarContainerSpec (ext : Externals) (_pod : Pod) (cfg : Configurator)
    (_originalHealthProbes : healthProbes) (_podOS : String) : Container :=
  { Name := ext.constants.GrpcClientContainerName,
    Image := ext.constants.GrpcClientImage,
    ImagePullPolicy := PullIfNotPresent,
    VolumeMounts :=
      [{ Name := ext.constants.grpcBootstrapConfigVolume, MountPath := grpcProxyConfigPath },
       { Name := ext.constants.grpcBootstrapSecretsVolume, MountPath := grpcProxySecretsPath }],
    Command := ["sleep", "100000000"],
    Resources := cfg.GetProxyResources,
    Env :=
      [{ Name := "GRPC_XDS_BOOTSTRAP",
         Value := pathJoin grpcProxyConfigPath grpcBootstrapConfigFile },
       { Name := "GRPC_GO_LOG_VERBOSITY_LEVEL", Value := "99" },
       { Name := "GRPC_GO_LOG_SEVERITY_LEVEL", Value := "info" }] }

section
variable {σ : Type}

/-- The function `createGrpcBootstrapConfig`: writes the config map and the secret
of the gRPC bootstrap configuration, updating each if it exists and creating
it otherwise. Returns the cluster it leaves behind and the error. -/
def createGrpcBootstrapConfig (ext : Externals) (wh : mutatingWebhook σ) (cluster : σ)
    (configName secretsName ns osmNamespace : String) (cert : Certificate)
    (proxyUUID : String) : σ × Option Error :=
  let proxyUUIDStr := proxyUUID
  let grpcBootstrapOptions : GrpcBootstrapOptions :=
    { NodeID := proxyUUIDStr,
      ServerURI := getOSMControllerFQDN ext osmNamespace ++ ":"
        ++ decimal ext.constants.ADSServerPort,
      Version := ext.constants.TransportV3,
      CertificateProviders :=
        [(proxyUUIDStr, DefaultFileWatcherConfig ext
          (pathJoin grpcProxySecretsPath certFile)
          (pathJoin grpcProxySecretsPath keyFile)
          (pathJoin grpcProxySecretsPath rootCAFile))] }
  match ext.GrpcBootstrapContents grpcBootstrapOptions with
  | (_, some err) => (cluster, some err)
  | (bootstrapConfigBytes, none) =>
    let labels : GoMap String String :=
      [(ext.constants.OSMAppNameLabelKey, ext.constants.OSMAppNameLabelValue),
       (ext.constants.OSMAppInstanceLabelKey, wh.meshName),
       (ext.constants.OSMAppVersionLabelKey, ext.constants.Version)]
    let bootstrapCM : ConfigMap :=
      { Name := configName, Labels := labels,
        Data := [(grpcBootstrapConfigFile, bootstrapConfigBytes)] }
    let written : σ × Option Error :=
      match wh.kubeClient.ConfigMapsGet cluster ns configName with
      | (existing, none) =>
        wh.kubeClient.ConfigMapsUpdate cluster ns
          { existing with Data := bootstrapCM.Data }
      | (_, some _) => wh.kubeClient.ConfigMapsCreate cluster ns bootstrapCM
    match written with
    | (cluster, some err) => (cluster, some err)
    | (cluster, none) =>
      let bootstrapSecrets : Secret :=
        { Name := secretsName, Labels := labels,
          Data := [(certFile, cert.GetCertificateChain), (keyFile, cert.GetPrivateKey),
                   (rootCAFile, cert.GetIssuingCA)] }
      let written : σ × Option Error :=
        match wh.kubeClient.SecretsGet cluster ns secretsName with
        | (existing, none) =>
          wh.kubeClient.SecretsUpdate cluster ns
            { existing with Data := bootstrapSecrets.Data }
        | (_, some _) => wh.kubeClient.SecretsCreate cluster ns bootstrapSecrets
      match written with
      | (cluster, some err) => (cluster, some err)
      | (cluster, none) => (cluster, none)

/-- What a call of `createPatchProxyless` leaves behind: the returned bytes and
error, the pod as mutated through the pointer, and the cluster. -/
structure PatchResult (σ : Type) where
  patch : String
  err : Option Error
  pod : Pod
  cluster : σ

/-- The init container that `createPatchProxyless` adds to a pod that does not
run on Windows: the port exclusion lists of the pod (errors ignored) merged
with the global ones, handed to `getInitContainerSpec`. -/
def createPatchProxyless.initContainer (ext : Externals) (wh : mutatingWebhook σ) (pod : Pod)
    (ns : String) : Container :=
  let podOutboundPortExclusionList :=
    (ext.getPortExclusionListForPod pod ns
      ext.constants.outboundPortExclusionListAnnotation).1
  let globalOutboundPortExclusionList := wh.configurator.GetOutboundPortExclusionList
  let outboundPortExclusionList :=
    ext.mergePortExclusionLists podOutboundPortExclusionList globalOutboundPortExclusionList
  let podInboundPortExclusionList :=
    (ext.getPortExclusionListForPod pod ns
      ext.constants.inboundPortExclusionListAnnotation).1
  let globalInboundPortExclusionList := wh.configurator.GetInboundPortExclusionList
  let inboundPortExclusionList :=
    ext.mergePortExclusionLists podInboundPortExclusionList globalInboundPortExclusionList
  ext.getInitContainerSpec ext.constants.InitContainerName wh.configurator
    wh.configurator.GetOutboundIPRangeExclusionList outboundPortExclusionList
    inboundPortExclusionList wh.configurator.IsPrivilegedInitContainer

/-- The pod with the two volumes of the gRPC bootstrap configuration added. -/
def createPatchProxyless.withVolumes (ext : Externals) (pod : Pod)
    (grpcBootstrapConfigName grpcBootstrapSecretsName : String) : Pod :=
  { pod with Spec := { pod.Spec with
      Volumes := pod.Spec.Volumes ++
        [{ Name := ext.constants.grpcBootstrapConfigVolume,
           ConfigMap := some grpcBootstrapConfigName, Secret := none },
         { Name := ext.constants.grpcBootstrapSecretsVolume,
           ConfigMap := none, Secret := some grpcBootstrapSecretsName }] } }

/-- The function `createPatchProxyless` of `patch_proxyless.go`. -/
def createPatchProxyless (ext : Externals) (wh : mutatingWebhook σ) (cluster : σ) (pod : Pod)
    (req : AdmissionRequest) (proxyUUID : String) : PatchResult σ :=
  let ns := req.Namespace
  let cn := ext.NewXDSCertCommonName proxyUUID ext.constants.KindSidecar
    pod.Spec.ServiceAccountName ns
  match wh.certManager.IssueCertificate cn ext.constants.XDSCertificateValidityPeriod with
  | (_, some err) => { patch := "", err := some err, pod := pod, cluster := cluster }
  | (bootstrapCertificate, none) =>
    let rewritten := ext.rewriteHealthProbes pod
    let pod := rewritten.1
    let originalHealthProbes := rewritten.2
    let grpcBootstrapConfigName := "grpc-bootstrap-config-" ++ proxyUUID
    let grpcBootstrapSecretsName := "grpc-bootstrap-secrets-" ++ proxyUUID
    let created : σ × Option Error :=
      if req.DryRun = some true then (cluster, none)
      else createGrpcBootstrapConfig ext wh cluster grpcBootstrapConfigName
        grpcBootstrapSecretsName ns wh.osmNamespace bootstrapCertificate proxyUUID
    match created with
    | (cluster, some err) => { patch := "", err := some err, pod := pod, cluster := cluster }
    | (cluster, none) =>
      let pod := createPatchProxyless.withVolumes ext pod grpcBootstrapConfigName
        grpcBootstrapSecretsName
      let podOS := GoMap.index pod.Spec.NodeSelector "kubernetes.io/os" ""
      match ext.verifyPrerequisites podOS with
      | some err => { patch := "", err := some err, pod := pod, cluster := cluster }
      | none =>
        let pod :=
          if ¬ ext.EqualFold podOS ext.constants.OSWindows then
            { pod with Spec := { pod.Spec with
                InitContainers := pod.Spec.InitContainers ++
                  [createPatchProxyless.initContainer ext wh pod ns] } }
          else pod
        let sidecar :=
          getGrpcSidecarContainerSpec ext pod wh.configurator originalHealthProbes podOS
        let pod := { pod with Spec := { pod.Spec with
          Containers := pod.Spec.Containers ++ [sidecar] } }
        let pod := { pod with
          Labels := some (GoMap.set (pod.Labels.getD [])
            ext.constants.GRPCUniqueIDLabelName proxyUUID) }
        let marshalled := ext.marshalPatches req pod
        { patch := marshalled.1, err := marshalled.2, pod := pod, cluster := cluster }

end

end injector

namespace example_inputs

/-- A cluster state for the examples: the config maps and the secrets, by
namespace and name. -/
structure Cluster where
  configMaps : GoMap (String × String) injector.ConfigMap
  secrets : GoMap (String × String) injector.Secret
deriving DecidableEq, Repr

/-- A Kubernetes client for the examples: `Get` and `Update` fail on an object
that does not exist, `Create` fails on one that does. -/
def kubeClient : injector.KubeClient Cluster :=
  { ConfigMapsGet := fun c ns name =>
      if (ns, name) ∈ c.configMaps.map Prod.fst then
        (GoMap.index c.configMaps (ns, name) { Name := "", Labels := [], Data := [] }, none)
      else ({ Name := "", Labels := [], Data := [] }, some (Error.external "not found")),
    ConfigMapsUpdate := fun c ns cm =>
      if (ns, cm.Name) ∈ c.configMaps.map Prod.fst then
        ({ c with configMaps := GoMap.set c.configMaps (ns, cm.Name) cm }, none)
      else (c, some (Error.external "not found")),
    ConfigMapsCreate := fun c ns cm =>
      if (ns, cm.Name) ∈ c.configMaps.map Prod.fst then
        (c, some (Error.external "already exists"))
      else ({ c with configMaps := GoMap.set c.configMaps (ns, cm.Name) cm }, none),
    SecretsGet := fun c ns name =>
      if (ns, name) ∈ c.secrets.map Prod.fst then
        (GoMap.index c.secrets (ns, name) { Name := "", Labels := [], Data := [] }, none)
      else ({ Name := "", Labels := [], Data := [] }, some (Error.external "not found")),
    SecretsUpdate := fun c ns s =>
      if (ns, s.Name) ∈ c.secrets.map Prod.fst then
        ({ c with secrets := GoMap.set c.secrets (ns, s.Name) s }, none)
      else (c, some (Error.external "not found")),
    SecretsCreate := fun c ns s =>
      if (ns, s.Name) ∈ c.secrets.map Prod.fst then
        (c, some (Error.external "already exists"))
      else ({ c with secrets := GoMap.set c.secrets (ns, s.Name) s }, none) }

/-- Values for the constants declared outside the given sources. -/
def injectorConstants : injector.Constants :=
  { grpcBootstrapConfigVolume := "grpc-bootstrap-config-volume",
    grpcBootstrapSecretsVolume := "grpc-bootstrap-secrets-volume",
    outboundPortExclusionListAnnotation := "outbound-port-exclusion-list",
    inboundPortExclusionListAnnotation := "inbound-port-exclusion-list",
    KindSidecar := "sidecar",
    XDSCertificateValidityPeriod := 87600,
    OSWindows := "windows",
    InitContainerName := "osm-init",
    GrpcClientContainerName := "grpc-client",
    GrpcClientImage := "grpc-client:latest",
    GRPCUniqueIDLabelName := "grpc-uid",
    OSMAppNameLabelKey := "app.kubernetes.io/name",
    OSMAppNameLabelValue := "openservicemesh.io",
    OSMAppInstanceLabelKey := "app.kubernetes.io/instance",
    OSMAppVersionLabelKey := "app.kubernetes.io/version",
    Version := "dev",
    OSMControllerName := "osm-controller",
    ADSServerPort := 15128,
    TransportV3 := "v3" }

/-- The code point of a character with the ASCII capitals folded to small
letters. -/
def asciiFold (c : Char) : Nat :=
  if 65 ≤ c.toNat ∧ c.toNat ≤ 90 then c.toNat + 32 else c.toNat

/-- Externals for the examples. Health probes are left as they are; the patch
is a summary of the pod; case folding is that of the ASCII letters. -/
def injectorExternals : injector.Externals :=
  { constants := injectorConstants,
    NewXDSCertCommonName := fun uuid kind account ns =>
      uuid ++ "." ++ kind ++ "." ++ account ++ "." ++ ns,
    rewriteHealthProbes := fun pod =>
      (pod, { liveness := none, readiness := none, startup := none }),
    verifyPrerequisites := fun _ => none,
    getPortExclusionListForPod := fun _ _ _ => ([], none),
    mergePortExclusionLists := fun a b => a ++ b,
    getInitContainerSpec := fun name _ _ _ _ _ =>
      { Name := name, Image := "init:latest", ImagePullPolicy := "IfNotPresent",
        VolumeMounts := [], Command := [], Resources := { Limits := [], Requests := [] },
        Env := [] },
    GrpcBootstrapContents := fun options => ("bootstrap for " ++ options.NodeID, none),
    marshalPatches := fun _ pod =>
      ("volumes=" ++ decimal pod.Spec.Volumes.length
        ++ " init=" ++ decimal pod.Spec.InitContainers.length
        ++ " containers=" ++ decimal pod.Spec.Containers.length, none),
    EqualFold := fun a b => a.data.map asciiFold = b.data.map asciiFold,
    Quote := fun s => "\"" ++ s ++ "\"" }

/-- A webhook whose certificate manager issues a fixed certificate, except for
the service account `nobody`. -/
def webhook : injector.mutatingWebhook Cluster :=
  { kubeClient := kubeClient,
    certManager :=
      { IssueCertificate := fun cn _ =>
          if cn = "uuid-1.sidecar.nobody.ns" then
            ({ GetCertificateChain := "", GetPrivateKey := "", GetIssuingCA := "" },
              some (Error.external "cannot issue certificate"))
          else ({ GetCertificateChain := "chain", GetPrivateKey := "key",
                  GetIssuingCA := "ca" }, none) },
    configurator :=
      { GetProxyResources := { Limits := [], Requests := [] },
        GetOutboundPortExclusionList := [],
        GetInboundPortExclusionList := [],
        GetOutboundIPRangeExclusionList := [],
        IsPrivilegedInitContainer := false },
    osmNamespace := "osm-system",
    meshName := "osm" }

/-- The application container of the example pods. -/
def appContainer : injector.Container :=
  { Name := "app", Image := "app:latest", ImagePullPolicy := "IfNotPresent",
    VolumeMounts := [], Command := [], Resources := { Limits := [], Requests := [] },
    Env := [] }

/-- A pod for a Linux node, with one container. -/
def linuxPod : injector.Pod :=
  { Labels := none,
    Spec := { ServiceAccountName := "bookbuyer", Volumes := [], InitContainers := [],
              Containers := [appContainer],
              NodeSelector := [("kubernetes.io/os", "linux")] } }

/-- A pod for a Windows node, with one container. -/
def windowsPod : injector.Pod :=
  { Labels := none,
    Spec := { ServiceAccountName := "bookbuyer", Volumes := [], InitContainers := [],
              Containers := [appContainer],
              NodeSelector := [("kubernetes.io/os", "Windows")] } }

/-- The empty cluster. -/
def emptyCluster : Cluster := { configMaps := [], secrets := [] }

/-- An admission request for the namespace `ns`, as a dry run. -/
def dryRunRequest : injector.AdmissionRequest := { Namespace := "ns", DryRun := some true }

/-- An admission request for the namespace `ns`, not a dry run. -/
def request : injector.AdmissionRequest := { Namespace := "ns", DryRun := none }

end example_inputs

/-! ## Package `injector`: the ports of the gRPC sidecar -/

namespace injector

set_option linter.dupNamespace false

/-- The part of `corev1.ContainerPort` that the package sets. -/
structure ContainerPort where
  Name : String
  ContainerPort : Nat
deriving DecidableEq, Repr

set_option linter.dupNamespace true

/-- Constants that `getGrpcContainerPorts` reads and that are declared outside
the given sources: the names and numbers of the three fixed ports (package
`constants`) and the numbers of the three probe ports. -/
structure PortConstants where
  EnvoyAdminPortName : String
  EnvoyAdminPort : Nat
  EnvoyInboundListenerPortName : String
  EnvoyInboundListenerPort : Nat
  EnvoyInboundPrometheusListenerPortName : String
  EnvoyPrometheusInboundListenerPort : Nat
  livenessProbePort : Nat
  readinessProbePort : Nat
  startupProbePort : Nat

/-- The function `getGrpcContainerPorts` of `grpc_container.go`. -/
def getGrpcContainerPorts (constants : PortConstants) (originalHealthProbes : healthProbes) :
    List ContainerPort :=
  let containerPorts : List ContainerPort :=
    [{ Name := constants.EnvoyAdminPortName, ContainerPort := constants.EnvoyAdminPort },
     { Name := constants.EnvoyInboundListenerPortName,
       ContainerPort := constants.EnvoyInboundListenerPort },
     { Name := constants.EnvoyInboundPrometheusListenerPortName,
       ContainerPort := constants.EnvoyPrometheusInboundListenerPort }]
  let containerPorts :=
    if originalHealthProbes.liveness ≠ none then
      let livenessPort : ContainerPort :=
        { Name := "liveness-port", ContainerPort := constants.livenessProbePort }
      containerPorts ++ [livenessPort]
    else containerPorts
  let containerPorts :=
    if originalHealthProbes.readiness ≠ none then
      let readinessPort : ContainerPort :=
        { Name := "readiness-port", ContainerPort := constants.readinessProbePort }
      containerPorts ++ [readinessPort]
    else containerPorts
  let containerPorts :=
    if originalHealthProbes.startup ≠ none then
      let startupPort : ContainerPort :=
        { Name := "startup-port", ContainerPort := constants.startupProbePort }
      containerPorts ++ [startupPort]
    else containerPorts
  containerPorts

/-- The number of probes that are not nil. -/
def healthProbes.count (probes : healthProbes) : Nat :=
  (if probes.liveness ≠ none then 1 else 0) + (if probes.readiness ≠ none then 1 else 0)
    + (if probes.startup ≠ none then 1 else 0)

end injector

namespace example_inputs

/-- A cataloger for the bookbuyer in which the stats headers, every ingress
lookup and the egress lookup return an error. -/
def routeCatalogAllErrors : rds.MeshCataloger String String String String :=
  { routeCatalog with
    GetMeshConfig := { Spec := { FeatureFlags := { EnableWASMStats := true } } },
    GetProxyStatsHeaders := fun _ => ([], some (Error.external "stats headers failed")),
    GetIngressTrafficPolicy := fun _ => (none, some (Error.external "ingress lookup failed")),
    GetEgressTrafficPolicy := fun _ => (none, some (Error.external "egress lookup failed")) }

/-- A pod of the service account `nobody`, for which the example certificate
manager issues no certificate; it has a volume, an init container and a
label. -/
def nobodyPod : injector.Pod :=
  { Labels := some [("app", "nobody")],
    Spec := { ServiceAccountName := "nobody",
              Volumes := [{ Name := "data", ConfigMap := none, Secret := none }],
              InitContainers := [appContainer],
              Containers := [appContainer],
              NodeSelector := [("kubernetes.io/os", "linux")] } }

/-- Values for the port constants. -/
def portConstants : injector.PortConstants :=
  { EnvoyAdminPortName := "proxy-admin",
    EnvoyAdminPort := 15000,
    EnvoyInboundListenerPortName := "proxy-inbound",
    EnvoyInboundListenerPort := 15003,
    EnvoyInboundPrometheusListenerPortName := "proxy-metrics",
    EnvoyPrometheusInboundListenerPort := 15010,
    livenessProbePort := 15901,
    readinessProbePort := 15902,
    startupProbePort := 15903 }

end example_inputs

/-! ## Lemmas on `strings.FieldsFunc` -/

namespace strings

theorem FieldsFunc.loop_field (f : Char → Bool) (t : List Char) (ht : ∀ c ∈ t, f c = false) :
    ∀ (rest cur : List Char) (spans : List String),
      FieldsFunc.loop f (t ++ rest) (some cur) spans
        = FieldsFunc.loop f rest (some (cur ++ t)) spans := by
  induction t with
  | nil => intro rest cur spans; simp
  | cons c t ih =>
    intro rest cur spans
    have hc : f c = false := ht c (List.mem_cons_self c t)
    have ht2 : ∀ x ∈ t, f x = false := fun x hx => ht x (List.mem_cons_of_mem c hx)
    have e : (c :: t) ++ rest = c :: (t ++ rest) := rfl
    rw [e]
    simp only [FieldsFunc.loop, hc, Bool.false_eq_true, if_false]
    rw [ih ht2]
    simp

theorem FieldsFunc.loop_field_start (f : Char → Bool) (t : List Char) (hne : t ≠ [])
    (ht : ∀ c ∈ t, f c = false) (rest : List Char) (spans : List String) :
    FieldsFunc.loop f (t ++ rest) none spans = FieldsFunc.loop f rest (some t) spans := by
  cases t with
  | nil => exact absurd rfl hne
  | cons c t =>
    have hc : f c = false := ht c (List.mem_cons_self c t)
    have ht2 : ∀ x ∈ t, f x = false := fun x hx => ht x (List.mem_cons_of_mem c hx)
    have e : (c :: t) ++ rest = c :: (t ++ rest) := rfl
    rw [e]
    simp only [FieldsFunc.loop, hc, Bool.false_eq_true, if_false]
    rw [FieldsFunc.loop_field f t ht2]
    simp

theorem FieldsFunc.loop_sep (f : Char → Bool) (r : Char) (hr : f r = true)
    (rest cur : List Char) (spans : List String) :
    FieldsFunc.loop f (r :: rest) (some cur) spans
      = FieldsFunc.loop f rest none (spans ++ [String.mk cur]) := by
  simp [FieldsFunc.loop, hr]

/-- Three non-empty separator-free fields joined by two separators split into
exactly these three fields. -/
theorem FieldsFunc.three_fields (f : Char → Bool) (a b c : List Char) (s1 s2 : Char)
    (ha : a ≠ []) (hb : b ≠ []) (hc : c ≠ [])
    (fa : ∀ x ∈ a, f x = false) (fb : ∀ x ∈ b, f x = false) (fc : ∀ x ∈ c, f x = false)
    (h1 : f s1 = true) (h2 : f s2 = true) :
    FieldsFunc.loop f (a ++ s1 :: (b ++ s2 :: c)) none []
      = [String.mk a, String.mk b, String.mk c] := by
  rw [FieldsFunc.loop_field_start f a ha fa, FieldsFunc.loop_sep f s1 h1,
    FieldsFunc.loop_field_start f b hb fb, FieldsFunc.loop_sep f s2 h2]
  have h := FieldsFunc.loop_field_start f c hc fc [] ([] ++ [String.mk a] ++ [String.mk b])
  rw [List.append_nil] at h
  rw [h]
  simp [FieldsFunc.loop]

end strings

/-! ## Lemmas on `strconv.ParseUint` -/

namespace strconv

theorem decValFrom_cons (n : Nat) (c : Char) (cs : List Char) :
    decValFrom n (c :: cs) = decValFrom (n * 10 + (c.toNat - 48)) cs := rfl

theorem le_decValFrom (cs : List Char) : ∀ n, n ≤ decValFrom n cs := by
  induction cs with
  | nil => intro n; exact Nat.le_refl n
  | cons c cs ih =>
    intro n
    rw [decValFrom_cons]
    have := ih (n * 10 + (c.toNat - 48))
    omega

theorem digitOf_of_isDecDigit (c : Char) (h : isDecDigit c) :
    digitOf c = some (c.toNat - 48) := by
  unfold isDecDigit at h
  simp [digitOf, h]

theorem digitOf_lt_ten (c : Char) (d : Nat) (h : digitOf c = some d) (hd : d < 10) :
    isDecDigit c ∧ d = c.toNat - 48 := by
  unfold digitOf at h
  by_cases hc : 48 ≤ c.toNat ∧ c.toNat ≤ 57
  · rw [if_pos hc] at h
    exact ⟨hc, (Option.some.inj h).symm⟩
  · rw [if_neg hc] at h
    split at h
    · have := Option.some.inj h
      omega
    · exact absurd h (by simp)

/-- On a string of digits whose value fits in 16 bits the digit loop returns
that value. -/
theorem ParseUint.loop_digits (cs : List Char) :
    ∀ n, (∀ c ∈ cs, isDecDigit c) → decValFrom n cs ≤ 65535 →
      ParseUint.loop 10 1844674407370955162 65535 cs n = (decValFrom n cs, none) := by
  induction cs with
  | nil => intro n _ _; rfl
  | cons c cs ih =>
    intro n hd hv
    have hc : isDecDigit c := hd c (List.mem_cons_self c cs)
    have hd2 : ∀ x ∈ cs, isDecDigit x := fun x hx => hd x (List.mem_cons_of_mem c hx)
    rw [decValFrom_cons] at hv ⊢
    have hle := le_decValFrom cs (n * 10 + (c.toNat - 48))
    have hc2 := hc
    unfold isDecDigit at hc2
    have e1 : n * 10 % 2 ^ 64 = n * 10 := Nat.mod_eq_of_lt (by omega)
    have e2 : (n * 10 + (c.toNat - 48)) % 2 ^ 64 = n * 10 + (c.toNat - 48) :=
      Nat.mod_eq_of_lt (by omega)
    simp only [ParseUint.loop, digitOf_of_isDecDigit c hc, e1, e2]
    rw [if_neg (by omega), if_neg (by omega), if_neg (by omega)]
    exact ih _ hd2 hv

/-- On anything else the digit loop reports an error. -/
theorem ParseUint.loop_error (cs : List Char) :
    ∀ n, n ≤ 65535 → ¬ ((∀ c ∈ cs, isDecDigit c) ∧ decValFrom n cs ≤ 65535) →
      ∃ v e, ParseUint.loop 10 1844674407370955162 65535 cs n = (v, some e) := by
  induction cs with
  | nil =>
    intro n hn h
    exact absurd ⟨by simp, hn⟩ h
  | cons c cs ih =>
    intro n hn h
    simp only [ParseUint.loop]
    cases hdc : digitOf c with
    | none => exact ⟨_, _, rfl⟩
    | some d =>
      simp only []
      by_cases hd : d ≥ 10
      · rw [if_pos hd]; exact ⟨_, _, rfl⟩
      · rw [if_neg hd, if_neg (by omega)]
        obtain ⟨hc, hdv⟩ := digitOf_lt_ten c d hdc (by omega)
        have e1 : n * 10 % 2 ^ 64 = n * 10 := Nat.mod_eq_of_lt (by omega)
        have e2 : (n * 10 + d) % 2 ^ 64 = n * 10 + d := Nat.mod_eq_of_lt (by omega)
        rw [e1, e2]
        by_cases hov : n * 10 + d < n * 10 ∨ n * 10 + d > 65535
        · rw [if_pos hov]; exact ⟨_, _, rfl⟩
        · rw [if_neg hov]
          apply ih _ (by omega)
          intro hh
          apply h
          refine ⟨?_, ?_⟩
          · intro x hx
            rcases List.mem_cons.mp hx with rfl | hx
            · exact hc
            · exact hh.1 x hx
          · rw [decValFrom_cons, ← hdv]; exact hh.2

end strconv

/-! ## Decimal printing and parsing -/

namespace strconv

theorem digitChar_toNat (k : Nat) (hk : k < 10) : (Nat.digitChar k).toNat = 48 + k := by
  interval_cases k <;> rfl

theorem isDecDigit_digitChar (k : Nat) (hk : k < 10) : isDecDigit (Nat.digitChar k) := by
  unfold isDecDigit
  rw [digitChar_toNat k hk]
  omega

theorem decValFrom_append_singleton (n : Nat) (cs : List Char) (c : Char) :
    decValFrom n (cs ++ [c]) = decValFrom n cs * 10 + (c.toNat - 48) := by
  simp [decValFrom, List.foldl_append]

/-- The digits that `Nat.toDigitsCore` puts in front of its accumulator are a
non-empty string of decimal digits whose value is the number printed. -/
theorem toDigitsCore_spec (fuel : Nat) :
    ∀ (n : Nat) (ds : List Char), n < fuel →
      ∃ pre, Nat.toDigitsCore 10 fuel n ds = pre ++ ds ∧ pre ≠ [] ∧
        (∀ c ∈ pre, isDecDigit c) ∧ decValFrom 0 pre = n := by
  induction fuel with
  | zero => intro n ds h; omega
  | succ fuel ih =>
    intro n ds h
    have hmod : n % 10 < 10 := Nat.mod_lt n (by decide)
    by_cases h0 : n / 10 = 0
    · refine ⟨[Nat.digitChar (n % 10)], ?_, by simp, ?_, ?_⟩
      · simp [Nat.toDigitsCore, h0]
      · intro c hc
        rw [List.mem_singleton.mp hc]
        exact isDecDigit_digitChar _ hmod
      · simp only [decValFrom, List.foldl, digitChar_toNat _ hmod]
        omega
    · obtain ⟨pre, hpre, _, hdig, hval⟩ :=
        ih (n / 10) (Nat.digitChar (n % 10) :: ds) (by omega)
      refine ⟨pre ++ [Nat.digitChar (n % 10)], ?_, by simp, ?_, ?_⟩
      · simp [Nat.toDigitsCore, h0, hpre]
      · intro c hc
        rcases List.mem_append.mp hc with hc | hc
        · exact hdig c hc
        · rw [List.mem_singleton.mp hc]
          exact isDecDigit_digitChar _ hmod
      · rw [decValFrom_append_singleton, hval, digitChar_toNat _ hmod]
        omega

/-- The decimal representation of a number is a decimal numeral denoting it. -/
theorem decimal_spec (p : Nat) :
    (decimal p).data ≠ [] ∧ (∀ c ∈ (decimal p).data, isDecDigit c) ∧
      decValFrom 0 (decimal p).data = p := by
  obtain ⟨pre, hpre, hne, hdig, hval⟩ := toDigitsCore_spec (p + 1) p [] (Nat.lt_succ_self p)
  have e : (decimal p).data = pre := by
    simp [decimal, Nat.repr, Nat.toDigits, List.asString, hpre]
  rw [e]
  exact ⟨hne, hdig, hval⟩

theorem ParseUint_eq_loop (s : String) (h : s.data ≠ []) :
    ParseUint s 10 16 = ParseUint.loop 10 1844674407370955162 65535 s.data 0 := by
  have hs : s ≠ "" := by
    intro e
    apply h
    rw [e]
  unfold ParseUint
  rw [if_neg hs]
  norm_num

/-- The function `ParseUint` accepts the decimal numerals of value at most
65535 and returns their value. -/
theorem ParseUint_numeral (s : String) (h : isDecimalNumeral s) (hv : decimalValue s ≤ 65535) :
    ParseUint s 10 16 = (decimalValue s, none) := by
  rw [ParseUint_eq_loop s h.1]
  exact ParseUint.loop_digits s.data 0 h.2 hv

/-- The function `ParseUint` rejects every other string. -/
theorem ParseUint_reject (s : String) (h : ¬ (isDecimalNumeral s ∧ decimalValue s ≤ 65535)) :
    ∃ v e, ParseUint s 10 16 = (v, some e) := by
  by_cases hne : s.data = []
  · have hs : s = "" := by
      cases s
      simp_all
    exact ⟨0, NumError.syntaxError, by simp [ParseUint, hs]⟩
  · rw [ParseUint_eq_loop s hne]
    apply ParseUint.loop_error s.data 0 (by omega)
    intro hh
    exact h ⟨⟨hne, hh.1⟩, hh.2⟩

theorem ParseUint_decimal (p : Nat) (hp : p ≤ 65535) :
    ParseUint (decimal p) 10 16 = (p, none) := by
  obtain ⟨hne, hdig, hval⟩ := decimal_spec p
  have h := ParseUint_numeral (decimal p) ⟨hne, hdig⟩ (by unfold decimalValue; omega)
  rw [h]
  unfold decimalValue
  rw [hval]

end strconv

/-! ## Lemmas on `clusterToMeshSvc` -/

namespace eds

theorem clusterToMeshSvc_of_fields_ok (cluster c0 c1 c2 : String)
    (hf : strings.FieldsFunc cluster splitFunc = [c0, c1, c2])
    (h : isDecimalNumeral c2) (hv : decimalValue c2 ≤ 65535) :
    clusterToMeshSvc cluster
      = ({ Namespace := c0, Name := c1, Subdomain := "", TargetPort := decimalValue c2 }, none) := by
  unfold clusterToMeshSvc
  rw [hf]
  simp only [strconv.ParseUint_numeral c2 h hv]
  have : decimalValue c2 % 2 ^ 16 = decimalValue c2 := Nat.mod_eq_of_lt (by omega)
  rw [this]

theorem clusterToMeshSvc_of_fields_err (cluster c0 c1 c2 : String)
    (hf : strings.FieldsFunc cluster splitFunc = [c0, c1, c2])
    (h : ¬ (isDecimalNumeral c2 ∧ decimalValue c2 ≤ 65535)) :
    ∃ e, clusterToMeshSvc cluster = (MeshService.zero, some (Error.invalidClusterPort c2 e)) := by
  obtain ⟨v, e, he⟩ := strconv.ParseUint_reject c2 h
  refine ⟨e, ?_⟩
  unfold clusterToMeshSvc
  rw [hf]
  simp only [he]

theorem clusterToMeshSvc_of_length_ne (cluster : String)
    (hf : (strings.FieldsFunc cluster splitFunc).length ≠ 3) :
    clusterToMeshSvc cluster = (MeshService.zero, some (Error.invalidClusterName cluster)) := by
  unfold clusterToMeshSvc
  split
  · rename_i c0 c1 c2 heq
    rw [heq] at hf
    exact absurd rfl hf
  · rfl

theorem splitFunc_false_of_noSeparator (s : String) (h : noSeparator s) :
    ∀ c ∈ s.data, splitFunc c = false := by
  intro c hc
  obtain ⟨h1, h2⟩ := h c hc
  simp [splitFunc, h1, h2]

theorem splitFunc_false_of_digit (c : Char) (h : strconv.isDecDigit c) : splitFunc c = false := by
  unfold strconv.isDecDigit at h
  have h1 : c ≠ '/' := by
    intro e
    rw [e] at h
    exact absurd h (by decide)
  have h2 : c ≠ '|' := by
    intro e
    rw [e] at h
    exact absurd h (by decide)
  simp [splitFunc, h1, h2]

/-- The fields of `<ns>/<name>|<port>` for non-empty `ns` and `name` without
separators. -/
theorem FieldsFunc_plain (ns name : String) (p : Nat)
    (hns : ns ≠ "") (hname : name ≠ "") (sns : noSeparator ns) (sname : noSeparator name) :
    strings.FieldsFunc (ns ++ "/" ++ name ++ "|" ++ decimal p) splitFunc
      = [ns, name, decimal p] := by
  obtain ⟨hne, hdig, _⟩ := strconv.decimal_spec p
  have h1 : ns.data ≠ [] := by
    intro e
    apply hns
    cases ns
    simp_all
  have h2 : name.data ≠ [] := by
    intro e
    apply hname
    cases name
    simp_all
  have e : (ns ++ "/" ++ name ++ "|" ++ decimal p).data
      = ns.data ++ '/' :: (name.data ++ '|' :: (decimal p).data) := by
    simp [String.data_append]
  unfold strings.FieldsFunc
  rw [e]
  exact strings.FieldsFunc.three_fields splitFunc ns.data name.data (decimal p).data '/' '|'
    h1 h2 hne (splitFunc_false_of_noSeparator ns sns) (splitFunc_false_of_noSeparator name sname)
    (fun c hc => splitFunc_false_of_digit c (hdig c hc)) (by decide) (by decide)

theorem clusterToMeshSvc_plain (ns name : String) (p : Nat)
    (hns : ns ≠ "") (hname : name ≠ "") (sns : noSeparator ns) (sname : noSeparator name)
    (hp : p ≤ 65535) :
    clusterToMeshSvc (ns ++ "/" ++ name ++ "|" ++ decimal p)
      = ({ Namespace := ns, Name := name, Subdomain := "", TargetPort := p }, none) := by
  obtain ⟨hne, hdig, hval⟩ := strconv.decimal_spec p
  have h := clusterToMeshSvc_of_fields_ok _ ns name (decimal p)
    (FieldsFunc_plain ns name p hns hname sns sname) ⟨hne, hdig⟩
    (by unfold decimalValue; omega)
  rw [h]
  unfold decimalValue
  rw [hval]

end eds

/-! ## Cluster names: claims C1 to C5 -/

namespace eds

/-- Claim C2, what the code does: on the headless-service name
`foo/mysql-0.mysql|80` the function returns the name `mysql-0.mysql` and an
empty subdomain, where the package's test expects the name `mysql` and the
subdomain `mysql-0`; in fact the function never sets a subdomain, whatever the
input. -/
theorem clusterToMeshSvc_headless_actual :
    clusterToMeshSvc "foo/mysql-0.mysql|80"
      = ({ Namespace := "foo", Name := "mysql-0.mysql", Subdomain := "", TargetPort := 80 },
          none) ∧
    ∀ cluster : String, (clusterToMeshSvc cluster).1.Subdomain = "" := by
  refine ⟨by decide, ?_⟩
  intro cluster
  unfold clusterToMeshSvc
  split
  · split <;> rfl
  · rfl

/-- Claim C3: for every non-empty namespace `ns` and name `n` that contain none of
`/`, `|`, `.` and every port `p` in 0..65535, the cluster name
`ns/n|decimal(p)` parses successfully to the service with namespace `ns`,
name `n`, empty subdomain and target port `p`. -/
theorem clusterToMeshSvc_plain_name (ns n : String) (p : Nat)
    (hns : ns ≠ "") (hn : n ≠ "")
    (cns : ∀ c ∈ ns.data, c ≠ '/' ∧ c ≠ '|' ∧ c ≠ '.')
    (cn : ∀ c ∈ n.data, c ≠ '/' ∧ c ≠ '|' ∧ c ≠ '.')
    (hp : p ≤ 65535) :
    clusterToMeshSvc (ns ++ "/" ++ n ++ "|" ++ decimal p)
      = ({ Namespace := ns, Name := n, Subdomain := "", TargetPort := p }, none) :=
  clusterToMeshSvc_plain ns n p hns hn
    (fun c hc => ⟨(cns c hc).1, (cns c hc).2.1⟩) (fun c hc => ⟨(cn c hc).1, (cn c hc).2.1⟩) hp

/-- Claim C3, witness: `foo/bar|80` gives namespace `foo`, name `bar`, target
port 80. -/
theorem clusterToMeshSvc_plain_name_witness :
    "foo" ++ "/" ++ "bar" ++ "|" ++ decimal 80 = "foo/bar|80" ∧
    clusterToMeshSvc ("foo" ++ "/" ++ "bar" ++ "|" ++ decimal 80)
      = ({ Namespace := "foo", Name := "bar", Subdomain := "", TargetPort := 80 }, none) :=
  ⟨by decide, clusterToMeshSvc_plain_name "foo" "bar" 80 (by decide) (by decide)
    (by decide) (by decide) (by decide)⟩

/-- Claim C4, counterexample: `foo/bar/local` does consist of three tokens, and it
is rejected with the invalid-port error for the token `local`, not with the
invalid-cluster-name error of a wrong token count. -/
theorem clusterToMeshSvc_token_count_counterexample :
    strings.FieldsFunc "foo/bar/local" splitFunc = ["foo", "bar", "local"] ∧
    clusterToMeshSvc "foo/bar/local"
      = (MeshService.zero, some (Error.invalidClusterPort "local" NumError.syntaxError)) ∧
    clusterToMeshSvc "foo/bar/local"
      ≠ (MeshService.zero, some (Error.invalidClusterName "foo/bar/local")) := by
  decide

/-- Claim C4, amended: every cluster string that does not consist of exactly three
tokens after splitting on `/` and `|` is rejected with the invalid-cluster-name
error and the zero-value MeshService, as is `foobar` (one token);
`foo/bar/local` has three tokens and is rejected with the invalid-port error
and the zero-value MeshService. -/
theorem clusterToMeshSvc_wrong_token_count :
    (∀ cluster : String, (strings.FieldsFunc cluster splitFunc).length ≠ 3 →
      clusterToMeshSvc cluster = (MeshService.zero, some (Error.invalidClusterName cluster))) ∧
    clusterToMeshSvc "foobar" = (MeshService.zero, some (Error.invalidClusterName "foobar")) ∧
    clusterToMeshSvc "foo/bar/local"
      = (MeshService.zero, some (Error.invalidClusterPort "local" NumError.syntaxError)) :=
  ⟨clusterToMeshSvc_of_length_ne, by decide, by decide⟩

/-- Claim C4, witness: the string `a/b` has two tokens and is rejected for its
token count. -/
theorem clusterToMeshSvc_wrong_token_count_witness :
    (strings.FieldsFunc "a/b" splitFunc).length ≠ 3 ∧
    clusterToMeshSvc "a/b" = (MeshService.zero, some (Error.invalidClusterName "a/b")) :=
  ⟨by decide, clusterToMeshSvc_wrong_token_count.1 "a/b" (by decide)⟩

/-- Claim C5: for every cluster string that splits into exactly three tokens, the
function succeeds exactly when the third token is an unsigned decimal numeral
of value at most 65535, and then returns the first two tokens as namespace and
name and that value as target port; otherwise it returns the invalid-port
error for the third token together with the zero-value MeshService. -/
theorem clusterToMeshSvc_port_validation (cluster c0 c1 c2 : String)
    (hf : strings.FieldsFunc cluster splitFunc = [c0, c1, c2]) :
    ((clusterToMeshSvc cluster).2 = none ↔ (isDecimalNumeral c2 ∧ decimalValue c2 ≤ 65535)) ∧
    (isDecimalNumeral c2 ∧ decimalValue c2 ≤ 65535 →
      clusterToMeshSvc cluster
        = ({ Namespace := c0, Name := c1, Subdomain := "", TargetPort := decimalValue c2 },
            none)) ∧
    (¬ (isDecimalNumeral c2 ∧ decimalValue c2 ≤ 65535) →
      ∃ e, clusterToMeshSvc cluster
        = (MeshService.zero, some (Error.invalidClusterPort c2 e))) := by
  have hok := fun h : isDecimalNumeral c2 ∧ decimalValue c2 ≤ 65535 =>
    clusterToMeshSvc_of_fields_ok cluster c0 c1 c2 hf h.1 h.2
  have herr := clusterToMeshSvc_of_fields_err cluster c0 c1 c2 hf
  refine ⟨⟨?_, ?_⟩, hok, herr⟩
  · intro h
    by_contra hn
    obtain ⟨e, he⟩ := herr hn
    rw [he] at h
    exact absurd h (by simp)
  · intro h
    rw [hok h]

/-- Claim C5, witness: the ports `65535`, `65536`, `-1` and `http`. -/
theorem clusterToMeshSvc_port_validation_witness :
    strings.FieldsFunc "foo/bar|65536" splitFunc = ["foo", "bar", "65536"] ∧
    ¬ (isDecimalNumeral "65536" ∧ decimalValue "65536" ≤ 65535) ∧
    (∃ e, clusterToMeshSvc "foo/bar|65536"
      = (MeshService.zero, some (Error.invalidClusterPort "65536" e))) ∧
    (∃ e, clusterToMeshSvc "foo/bar|-1"
      = (MeshService.zero, some (Error.invalidClusterPort "-1" e))) ∧
    (∃ e, clusterToMeshSvc "foo/bar|http"
      = (MeshService.zero, some (Error.invalidClusterPort "http" e))) ∧
    clusterToMeshSvc "foo/bar|65535"
      = ({ Namespace := "foo", Name := "bar", Subdomain := "", TargetPort := decimalValue "65535" },
          none) :=
  ⟨by decide, by decide,
    (clusterToMeshSvc_port_validation "foo/bar|65536" "foo" "bar" "65536" (by decide)).2.2
      (by decide),
    (clusterToMeshSvc_port_validation "foo/bar|-1" "foo" "bar" "-1" (by decide)).2.2
      (by decide),
    (clusterToMeshSvc_port_validation "foo/bar|http" "foo" "bar" "http" (by decide)).2.2
      (by decide),
    (clusterToMeshSvc_port_validation "foo/bar|65535" "foo" "bar" "65535" (by decide)).2.1
      (by decide)⟩

end eds

/-! ## Lemmas on Go maps and on the two response builders -/

theorem GoMap.keys_set {κ ν : Type} [DecidableEq κ] (m : GoMap κ ν) (k : κ) (v : ν) :
    (GoMap.set m k v).map Prod.fst
      = if k ∈ m.map Prod.fst then m.map Prod.fst else m.map Prod.fst ++ [k] := by
  induction m with
  | nil => simp [GoMap.set]
  | cons e m ih =>
    obtain ⟨k', v'⟩ := e
    by_cases h : k' = k
    · simp [GoMap.set, h]
    · have h' : ¬ k = k' := fun e => h e.symm
      simp only [GoMap.set, if_neg h, List.map_cons, ih, List.mem_cons, h', false_or]
      split <;> simp

theorem GoMap.mem_set {κ ν : Type} [DecidableEq κ] (m : GoMap κ ν) (k : κ) (v : ν)
    (p : κ × ν) (hp : p ∈ GoMap.set m k v) : p = (k, v) ∨ p ∈ m := by
  induction m with
  | nil =>
    simp only [GoMap.set, List.mem_singleton] at hp
    exact Or.inl hp
  | cons e m ih =>
    obtain ⟨k', v'⟩ := e
    by_cases h : k' = k
    · simp only [GoMap.set, if_pos h, List.mem_cons] at hp
      rcases hp with hp | hp
      · exact Or.inl hp
      · exact Or.inr (List.mem_cons_of_mem _ hp)
    · simp only [GoMap.set, if_neg h, List.mem_cons] at hp
      rcases hp with hp | hp
      · exact Or.inr (by rw [hp]; exact List.mem_cons_self _ _)
      · rcases ih hp with h1 | h1
        · exact Or.inl h1
        · exact Or.inr (List.mem_cons_of_mem _ h1)

theorem GoMap.nodup_keys_set {κ ν : Type} [DecidableEq κ] (m : GoMap κ ν) (k : κ) (v : ν)
    (h : (m.map Prod.fst).Nodup) : ((GoMap.set m k v).map Prod.fst).Nodup := by
  rw [GoMap.keys_set]
  split
  · exact h
  · rename_i hk
    exact List.Nodup.append h (List.nodup_singleton k) (by simpa using hk)

theorem GoMap.key_mem_set {κ ν : Type} [DecidableEq κ] (m : GoMap κ ν) (k : κ) (v : ν)
    (s : κ) : s ∈ (GoMap.set m k v).map Prod.fst ↔ s = k ∨ s ∈ m.map Prod.fst := by
  rw [GoMap.keys_set]
  split
  · rename_i hk
    constructor
    · exact fun h => Or.inr h
    · rintro (h | h)
      · rw [h]; exact hk
      · exact h
  · simp only [List.mem_append, List.mem_singleton]
    exact Or.comm

theorem foldl_append_singleton {α β : Type} (g : α → β) (l : List α) :
    ∀ init : List β, l.foldl (fun acc x => acc ++ [g x]) init = init ++ l.map g := by
  induction l with
  | nil => intro init; simp
  | cons x l ih => intro init; simp [ih]

namespace eds

/-- The map built by `getUpstreamEndpointsForProxyIdentity`, by induction on the
list of outbound services: `seen` are the services already processed. -/
theorem upstream_fold (A : MeshService → List Endpoint) (l : List MeshService) :
    ∀ (m : GoMap MeshService (List Endpoint)) (seen : List MeshService),
      (m.map Prod.fst).Nodup →
      (∀ p ∈ m, p.2 = A p.1 ∧ A p.1 ≠ [] ∧ p.1 ∈ seen) →
      (∀ s ∈ seen, A s ≠ [] → s ∈ m.map Prod.fst) →
      ((l.foldl (fun acc dstSvc =>
          if (A dstSvc).length = 0 then acc else GoMap.set acc dstSvc (A dstSvc)) m).map
            Prod.fst).Nodup ∧
      (∀ p ∈ l.foldl (fun acc dstSvc =>
          if (A dstSvc).length = 0 then acc else GoMap.set acc dstSvc (A dstSvc)) m,
          p.2 = A p.1 ∧ A p.1 ≠ [] ∧ p.1 ∈ seen ++ l) ∧
      (∀ s ∈ seen ++ l, A s ≠ [] →
        s ∈ (l.foldl (fun acc dstSvc =>
          if (A dstSvc).length = 0 then acc else GoMap.set acc dstSvc (A dstSvc)) m).map
            Prod.fst) := by
  induction l with
  | nil =>
    intro m seen h1 h2 h3
    rw [List.append_nil]
    exact ⟨h1, h2, h3⟩
  | cons x l ih =>
    intro m seen h1 h2 h3
    have hs : seen ++ x :: l = (seen ++ [x]) ++ l := by simp
    rw [hs]
    simp only [List.foldl_cons]
    by_cases hx : (A x).length = 0
    · rw [if_pos hx]
      have hx' : A x = [] := List.length_eq_zero.mp hx
      apply ih m (seen ++ [x]) h1
      · intro p hp
        obtain ⟨a, b, c⟩ := h2 p hp
        exact ⟨a, b, List.mem_append_left _ c⟩
      · intro s hs hne
        rcases List.mem_append.mp hs with h | h
        · exact h3 s h hne
        · rw [List.mem_singleton.mp h] at hne
          exact absurd hx' hne
    · rw [if_neg hx]
      have hx' : A x ≠ [] := fun e => hx (by rw [e]; rfl)
      apply ih (GoMap.set m x (A x)) (seen ++ [x]) (GoMap.nodup_keys_set m x (A x) h1)
      · intro p hp
        rcases GoMap.mem_set m x (A x) p hp with h | h
        · rw [h]
          exact ⟨rfl, hx', by simp⟩
        · obtain ⟨a, b, c⟩ := h2 p h
          exact ⟨a, b, List.mem_append_left _ c⟩
      · intro s hs hne
        rw [GoMap.key_mem_set]
        rcases List.mem_append.mp hs with h | h
        · exact Or.inr (h3 s h hne)
        · exact Or.inl (List.mem_singleton.mp h)

/-- The map of allowed endpoints has one entry for each outbound service that has
endpoints, holding these endpoints, and no other entry. -/
theorem getUpstreamEndpointsForProxyIdentity_spec (cat : MeshCataloger) (id : ServiceIdentity) :
    (getUpstreamEndpointsForProxyIdentity cat id).2 = none ∧
    (((getUpstreamEndpointsForProxyIdentity cat id).1).map Prod.fst).Nodup ∧
    (∀ p ∈ (getUpstreamEndpointsForProxyIdentity cat id).1,
      p.2 = cat.ListAllowedUpstreamEndpointsForService id p.1) ∧
    (∀ s, s ∈ ((getUpstreamEndpointsForProxyIdentity cat id).1).map Prod.fst ↔
      (s ∈ cat.ListOutboundServicesForIdentity id ∧
        cat.ListAllowedUpstreamEndpointsForService id s ≠ [])) := by
  obtain ⟨h1, h2, h3⟩ := upstream_fold (cat.ListAllowedUpstreamEndpointsForService id)
    (cat.ListOutboundServicesForIdentity id) [] [] (by simp) (by simp) (by simp)
  refine ⟨rfl, h1, fun p hp => (h2 p hp).1, fun s => ⟨?_, ?_⟩⟩
  · intro hs
    obtain ⟨p, hp, hps⟩ := List.mem_map.mp hs
    obtain ⟨_, b, c⟩ := h2 p hp
    rw [hps] at b c
    exact ⟨by simpa using c, b⟩
  · intro hs
    exact h3 s (by simpa using hs.1) hs.2

/-- Full mode, once the identity is resolved: one load assignment for each entry
of the map of allowed endpoints, in the order of the range statement. -/
theorem generateEDSConfig_eq {Resource : Type} (ext : Externals Resource) (order : RangeOrder)
    (cat : MeshCataloger) (proxy : Proxy) (id : ServiceIdentity)
    (hid : ext.GetServiceIdentityFromProxyCertificate proxy.CertificateCommonName = (id, none)) :
    generateEDSConfig ext order cat proxy
      = ((order.visit (getUpstreamEndpointsForProxyIdentity cat id).1).map
          (fun e => ext.newClusterLoadAssignment e.1 e.2), none) := by
  unfold generateEDSConfig
  rw [hid]
  simp only []
  have h : getUpstreamEndpointsForProxyIdentity cat id
      = ((getUpstreamEndpointsForProxyIdentity cat id).1, none) := rfl
  rw [h]
  simp only [foldl_append_singleton, List.nil_append]

/-- Either mode, when the identity cannot be resolved: that error and no
resource. -/
theorem generateEDSConfig_identity_error {Resource : Type} (ext : Externals Resource)
    (order : RangeOrder) (cat : MeshCataloger) (proxy : Proxy) (id : ServiceIdentity)
    (err : Error)
    (hid : ext.GetServiceIdentityFromProxyCertificate proxy.CertificateCommonName
      = (id, some err)) :
    generateEDSConfig ext order cat proxy = ([], some err) := by
  unfold generateEDSConfig
  rw [hid]

theorem fulfillEDSRequest_identity_error {Resource : Type} (ext : Externals Resource)
    (cat : MeshCataloger) (proxy : Proxy) (request : Option DiscoveryRequest)
    (id : ServiceIdentity) (err : Error)
    (hid : ext.GetServiceIdentityFromProxyCertificate proxy.CertificateCommonName
      = (id, some err)) :
    fulfillEDSRequest ext cat proxy request = ([], some err) := by
  unfold fulfillEDSRequest
  rw [hid]

end eds

namespace eds

theorem fulfill_fold {Resource : Type} (ext : Externals Resource) (cat : MeshCataloger)
    (id : ServiceIdentity) (names : List String) :
    ∀ init : List Resource,
      names.foldl
        (fun rdsResources cluster =>
          match clusterToMeshSvc cluster with
          | (_, some _) => rdsResources
          | (meshSvc, none) =>
            let endpoints := cat.ListAllowedUpstreamEndpointsForService id meshSvc
            if endpoints.length = 0 then rdsResources
            else rdsResources ++ [ext.newClusterLoadAssignment meshSvc endpoints])
        init
      = init ++ names.filterMap (fun cluster =>
          if (clusterToMeshSvc cluster).2 = none ∧
              cat.ListAllowedUpstreamEndpointsForService id (clusterToMeshSvc cluster).1 ≠ []
          then some (ext.newClusterLoadAssignment (clusterToMeshSvc cluster).1
            (cat.ListAllowedUpstreamEndpointsForService id (clusterToMeshSvc cluster).1))
          else none) := by
  induction names with
  | nil => intro init; simp
  | cons c names ih =>
    intro init
    simp only [List.foldl_cons, List.filterMap_cons]
    rw [ih]
    rcases h : clusterToMeshSvc c with ⟨svc, _ | e⟩
    · by_cases hl : (cat.ListAllowedUpstreamEndpointsForService id svc).length = 0
      · have hl' : cat.ListAllowedUpstreamEndpointsForService id svc = [] :=
          List.length_eq_zero.mp hl
        simp [hl']
      · have hl' : cat.ListAllowedUpstreamEndpointsForService id svc ≠ [] :=
          fun e => hl (by rw [e]; rfl)
        simp [hl, hl']
    · simp

/-- Targeted mode, once the identity is resolved: no error, and in request order
one load assignment for each name that parses and has endpoints. -/
theorem fulfillEDSRequest_eq {Resource : Type} (ext : Externals Resource) (cat : MeshCataloger)
    (proxy : Proxy) (names : List String) (id : ServiceIdentity)
    (hid : ext.GetServiceIdentityFromProxyCertificate proxy.CertificateCommonName = (id, none)) :
    fulfillEDSRequest ext cat proxy (some { ResourceNames := names })
      = (names.filterMap (fun cluster =>
          if (clusterToMeshSvc cluster).2 = none ∧
              cat.ListAllowedUpstreamEndpointsForService id (clusterToMeshSvc cluster).1 ≠ []
          then some (ext.newClusterLoadAssignment (clusterToMeshSvc cluster).1
            (cat.ListAllowedUpstreamEndpointsForService id (clusterToMeshSvc cluster).1))
          else none), none) := by
  unfold fulfillEDSRequest
  rw [hid]
  simp only []
  rw [fulfill_fold ext cat id names []]
  simp

/-- Resources of targeted mode come from non-empty endpoint lists. -/
theorem fulfillEDSRequest_nonempty {Resource : Type} (ext : Externals Resource)
    (cat : MeshCataloger) (proxy : Proxy) (request : Option DiscoveryRequest) :
    ∀ r ∈ (fulfillEDSRequest ext cat proxy request).1,
      ∃ id svc, ext.GetServiceIdentityFromProxyCertificate proxy.CertificateCommonName
          = (id, none) ∧
        cat.ListAllowedUpstreamEndpointsForService id svc ≠ [] ∧
        r = ext.newClusterLoadAssignment svc
          (cat.ListAllowedUpstreamEndpointsForService id svc) := by
  intro r hr
  rcases hid : ext.GetServiceIdentityFromProxyCertificate proxy.CertificateCommonName
    with ⟨id, _ | err⟩
  · cases request with
    | none =>
      simp [fulfillEDSRequest, hid] at hr
    | some req =>
      obtain ⟨names⟩ := req
      rw [fulfillEDSRequest_eq ext cat proxy names id hid] at hr
      obtain ⟨c, _, hc⟩ := List.mem_filterMap.mp hr
      split at hc
      · rename_i hcond
        exact ⟨id, (clusterToMeshSvc c).1, rfl, hcond.2, (Option.some.inj hc).symm⟩
      · exact absurd hc (by simp)
  · rw [fulfillEDSRequest_identity_error ext cat proxy request id err hid] at hr
    exact absurd hr (by simp)

/-- Resources of full mode come from non-empty endpoint lists. -/
theorem generateEDSConfig_nonempty {Resource : Type} (ext : Externals Resource)
    (order : RangeOrder) (cat : MeshCataloger) (proxy : Proxy) :
    ∀ r ∈ (generateEDSConfig ext order cat proxy).1,
      ∃ id svc, ext.GetServiceIdentityFromProxyCertificate proxy.CertificateCommonName
          = (id, none) ∧
        cat.ListAllowedUpstreamEndpointsForService id svc ≠ [] ∧
        r = ext.newClusterLoadAssignment svc
          (cat.ListAllowedUpstreamEndpointsForService id svc) := by
  intro r hr
  rcases hid : ext.GetServiceIdentityFromProxyCertificate proxy.CertificateCommonName
    with ⟨id, _ | err⟩
  · rw [generateEDSConfig_eq ext order cat proxy id hid] at hr
    obtain ⟨e, he, her⟩ := List.mem_map.mp hr
    obtain ⟨_, _, hval, hkeys⟩ := getUpstreamEndpointsForProxyIdentity_spec cat id
    have hmem : e ∈ (getUpstreamEndpointsForProxyIdentity cat id).1 :=
      (order.perm _).subset he
    have hk := (hkeys e.1).mp (List.mem_map_of_mem Prod.fst hmem)
    refine ⟨id, e.1, rfl, hk.2, ?_⟩
    rw [← hval e hmem]
    exact her.symm
  · rw [generateEDSConfig_identity_error ext order cat proxy id err hid] at hr
    exact absurd hr (by simp)

end eds

/-! ## Endpoint responses: claims C6 to C10 -/

namespace eds

/-- Claim C6: every resource returned by `NewResponse`, in targeted mode as in full
mode, is the load assignment of some service built from the list of endpoints
that `ListAllowedUpstreamEndpointsForService` returns for the proxy's identity
and that service, and this list is not empty. -/
theorem NewResponse_no_zero_endpoint_resource {Resource : Type} (ext : Externals Resource)
    (order : RangeOrder) (cat : MeshCataloger) (proxy : Proxy)
    (request : Option DiscoveryRequest) :
    ∀ r ∈ (NewResponse ext order cat proxy request).1,
      ∃ id svc, ext.GetServiceIdentityFromProxyCertificate proxy.CertificateCommonName
          = (id, none) ∧
        cat.ListAllowedUpstreamEndpointsForService id svc ≠ [] ∧
        r = ext.newClusterLoadAssignment svc
          (cat.ListAllowedUpstreamEndpointsForService id svc) := by
  intro r hr
  unfold NewResponse at hr
  split at hr
  · split at hr
    · exact fulfillEDSRequest_nonempty ext cat proxy _ r hr
    · exact generateEDSConfig_nonempty ext order cat proxy r hr
  · exact generateEDSConfig_nonempty ext order cat proxy r hr

/-- Claim C6, witness: the load assignment of `default/bookstore-v1` in the full
response for the bookbuyer. -/
theorem NewResponse_no_zero_endpoint_resource_witness :
    (example_inputs.bookstoreV1, [({ IP := "8.8.8.8", Port := 8888 } : Endpoint)])
      ∈ (NewResponse example_inputs.externals RangeOrder.stored example_inputs.catalog
          example_inputs.bookbuyer none).1 ∧
    ∃ id svc,
      example_inputs.externals.GetServiceIdentityFromProxyCertificate
          example_inputs.bookbuyer.CertificateCommonName = (id, none) ∧
        example_inputs.catalog.ListAllowedUpstreamEndpointsForService id svc ≠ [] ∧
        (example_inputs.bookstoreV1, [({ IP := "8.8.8.8", Port := 8888 } : Endpoint)])
          = example_inputs.externals.newClusterLoadAssignment svc
            (example_inputs.catalog.ListAllowedUpstreamEndpointsForService id svc) :=
  ⟨by decide,
    NewResponse_no_zero_endpoint_resource example_inputs.externals RangeOrder.stored
      example_inputs.catalog example_inputs.bookbuyer none _ (by decide)⟩

/-- Claim C7: for a proxy with a resolvable identity and every list of requested
names, `fulfillEDSRequest` returns a nil error and, in request order, exactly
one load assignment for each requested name that `clusterToMeshSvc` parses and
for which `ListAllowedUpstreamEndpointsForService` returns a non-empty list;
the other names contribute nothing. -/
theorem fulfillEDSRequest_skips_bad_entries {Resource : Type} (ext : Externals Resource)
    (cat : MeshCataloger) (proxy : Proxy) (names : List String) (id : ServiceIdentity)
    (hid : ext.GetServiceIdentityFromProxyCertificate proxy.CertificateCommonName = (id, none)) :
    fulfillEDSRequest ext cat proxy (some { ResourceNames := names })
      = (names.filterMap (fun cluster =>
          if (clusterToMeshSvc cluster).2 = none ∧
              cat.ListAllowedUpstreamEndpointsForService id (clusterToMeshSvc cluster).1 ≠ []
          then some (ext.newClusterLoadAssignment (clusterToMeshSvc cluster).1
            (cat.ListAllowedUpstreamEndpointsForService id (clusterToMeshSvc cluster).1))
          else none), none) :=
  fulfillEDSRequest_eq ext cat proxy names id hid

/-- Claim C7, witness: the single name `default/bookstore-v1|80` yields exactly one
resource; with a malformed name and a name without endpoints around it, the
response is the same. -/
theorem fulfillEDSRequest_skips_bad_entries_witness :
    example_inputs.externals.GetServiceIdentityFromProxyCertificate
        example_inputs.bookbuyer.CertificateCommonName = ("bookbuyer.default", none) ∧
    fulfillEDSRequest example_inputs.externals example_inputs.catalog example_inputs.bookbuyer
        (some { ResourceNames := ["default/bookstore-v1|80"] })
      = ([(example_inputs.bookstoreV1, [{ IP := "8.8.8.8", Port := 8888 }])], none) ∧
    fulfillEDSRequest example_inputs.externals example_inputs.catalog example_inputs.bookbuyer
        (some { ResourceNames :=
          ["foobar", "default/bookstore-v1|80", "default/bookstore-apex|80"] })
      = ([(example_inputs.bookstoreV1, [{ IP := "8.8.8.8", Port := 8888 }])], none) :=
  ⟨by decide,
    (fulfillEDSRequest_skips_bad_entries example_inputs.externals example_inputs.catalog
      example_inputs.bookbuyer ["default/bookstore-v1|80"] "bookbuyer.default"
      (by decide)).trans (by decide),
    (fulfillEDSRequest_skips_bad_entries example_inputs.externals example_inputs.catalog
      example_inputs.bookbuyer ["foobar", "default/bookstore-v1|80", "default/bookstore-apex|80"]
      "bookbuyer.default" (by decide)).trans (by decide)⟩

/-- Claim C8: `NewResponse` is `fulfillEDSRequest` on a request that is not nil and
carries at least one resource name, and is `generateEDSConfig`, which does not
take the request, when the request is nil or its list of names is empty. -/
theorem NewResponse_mode_selection {Resource : Type} (ext : Externals Resource)
    (order : RangeOrder) (cat : MeshCataloger) (proxy : Proxy) :
    (∀ (name : String) (names : List String),
      NewResponse ext order cat proxy (some { ResourceNames := name :: names })
        = fulfillEDSRequest ext cat proxy (some { ResourceNames := name :: names })) ∧
    NewResponse ext order cat proxy none = generateEDSConfig ext order cat proxy ∧
    NewResponse ext order cat proxy (some { ResourceNames := [] })
      = generateEDSConfig ext order cat proxy := by
  refine ⟨?_, rfl, rfl⟩
  intro name names
  simp [NewResponse]

/-- Claim C9, counterexample: against the same catalog and for the same proxy, two
full-mode invocations whose range statements visit the map of allowed
endpoints in different orders return the two load assignments in different
orders. -/
theorem generateEDSConfig_order_counterexample :
    NewResponse example_inputs.externals RangeOrder.stored example_inputs.catalog
        example_inputs.bookbuyer none
      = ([(example_inputs.bookstoreV1, [{ IP := "8.8.8.8", Port := 8888 }]),
          (example_inputs.bookstoreV2, [{ IP := "9.9.9.9", Port := 8888 }])], none) ∧
    NewResponse example_inputs.externals RangeOrder.reversed example_inputs.catalog
        example_inputs.bookbuyer none
      = ([(example_inputs.bookstoreV2, [{ IP := "9.9.9.9", Port := 8888 }]),
          (example_inputs.bookstoreV1, [{ IP := "8.8.8.8", Port := 8888 }])], none) ∧
    NewResponse example_inputs.externals RangeOrder.stored example_inputs.catalog
        example_inputs.bookbuyer none
      ≠ NewResponse example_inputs.externals RangeOrder.reversed example_inputs.catalog
        example_inputs.bookbuyer none := by
  decide

/-- Claim C9, amended: for every catalog state and proxy, two full-mode invocations
against the unchanged catalog return the same error and the same resources up
to the order of the elements: each resource list is a permutation of the
other. -/
theorem generateEDSConfig_deterministic_up_to_order {Resource : Type}
    (ext : Externals Resource) (order1 order2 : RangeOrder) (cat : MeshCataloger)
    (proxy : Proxy) :
    (generateEDSConfig ext order1 cat proxy).2 = (generateEDSConfig ext order2 cat proxy).2 ∧
    List.Perm (generateEDSConfig ext order1 cat proxy).1
      (generateEDSConfig ext order2 cat proxy).1 := by
  rcases hid : ext.GetServiceIdentityFromProxyCertificate proxy.CertificateCommonName
    with ⟨id, _ | err⟩
  · rw [generateEDSConfig_eq ext order1 cat proxy id hid,
      generateEDSConfig_eq ext order2 cat proxy id hid]
    refine ⟨rfl, List.Perm.map _ ?_⟩
    exact (order1.perm _).trans (order2.perm _).symm
  · rw [generateEDSConfig_identity_error ext order1 cat proxy id err hid,
      generateEDSConfig_identity_error ext order2 cat proxy id err hid]
    exact ⟨rfl, List.Perm.refl _⟩

/-- Claim C10: for a proxy with a resolvable identity, full mode returns a nil error
and exactly one load assignment for each service of a duplicate-free list
whose members are the services of `ListOutboundServicesForIdentity` for which
`ListAllowedUpstreamEndpointsForService` is non-empty; each load assignment is
built from these endpoints. -/
theorem generateEDSConfig_authorized_destinations {Resource : Type} (ext : Externals Resource)
    (order : RangeOrder) (cat : MeshCataloger) (proxy : Proxy) (id : ServiceIdentity)
    (hid : ext.GetServiceIdentityFromProxyCertificate proxy.CertificateCommonName = (id, none)) :
    ∃ svcs : List MeshService,
      svcs.Nodup ∧
      (∀ s, s ∈ svcs ↔ (s ∈ cat.ListOutboundServicesForIdentity id ∧
        cat.ListAllowedUpstreamEndpointsForService id s ≠ [])) ∧
      generateEDSConfig ext order cat proxy
        = (svcs.map (fun s => ext.newClusterLoadAssignment s
            (cat.ListAllowedUpstreamEndpointsForService id s)), none) := by
  obtain ⟨_, hnodup, hval, hkeys⟩ := getUpstreamEndpointsForProxyIdentity_spec cat id
  have hperm := order.perm (getUpstreamEndpointsForProxyIdentity cat id).1
  refine ⟨(order.visit (getUpstreamEndpointsForProxyIdentity cat id).1).map Prod.fst, ?_, ?_, ?_⟩
  · exact ((hperm.map Prod.fst).nodup_iff).mpr hnodup
  · intro s
    rw [← hkeys s]
    exact (hperm.map Prod.fst).mem_iff
  · rw [generateEDSConfig_eq ext order cat proxy id hid, List.map_map]
    congr 1
    apply List.map_congr_left
    intro e he
    simp only [Function.comp]
    rw [hval e (hperm.subset he)]

/-- Claim C10, witness: the example catalog lists `bookstore-v1` twice and
`bookstore-apex`, which has no endpoints; the full response for the bookbuyer
has one load assignment for `bookstore-v1` and one for `bookstore-v2`. -/
theorem generateEDSConfig_authorized_destinations_witness :
    example_inputs.externals.GetServiceIdentityFromProxyCertificate
        example_inputs.bookbuyer.CertificateCommonName = ("bookbuyer.default", none) ∧
    (generateEDSConfig example_inputs.externals RangeOrder.stored example_inputs.catalog
        example_inputs.bookbuyer).1.length = 2 ∧
    ∃ svcs : List MeshService,
      svcs.Nodup ∧
      (∀ s, s ∈ svcs ↔
        (s ∈ example_inputs.catalog.ListOutboundServicesForIdentity "bookbuyer.default" ∧
          example_inputs.catalog.ListAllowedUpstreamEndpointsForService "bookbuyer.default" s
            ≠ [])) ∧
      generateEDSConfig example_inputs.externals RangeOrder.stored example_inputs.catalog
          example_inputs.bookbuyer
        = (svcs.map (fun s => example_inputs.externals.newClusterLoadAssignment s
            (example_inputs.catalog.ListAllowedUpstreamEndpointsForService
              "bookbuyer.default" s)), none) :=
  ⟨by decide, by decide,
    generateEDSConfig_authorized_destinations example_inputs.externals RangeOrder.stored
      example_inputs.catalog example_inputs.bookbuyer "bookbuyer.default" (by decide)⟩

end eds

/-! ## Identity failures and tokens: claims C11 and C20 -/

namespace strings

end strings

namespace eds

/-- Claim C11: in targeted mode and in full mode alike, when the service identity
cannot be derived from the certificate common name of the proxy, `NewResponse`
returns that error together with the nil resource list. -/
theorem NewResponse_identity_error {Resource : Type} (ext : Externals Resource)
    (order : RangeOrder) (cat : MeshCataloger) (proxy : Proxy)
    (request : Option DiscoveryRequest) (id : ServiceIdentity) (err : Error)
    (hid : ext.GetServiceIdentityFromProxyCertificate proxy.CertificateCommonName
      = (id, some err)) :
    NewResponse ext order cat proxy request = ([], some err) := by
  unfold NewResponse
  split
  · split
    · exact fulfillEDSRequest_identity_error ext cat proxy _ id err hid
    · exact generateEDSConfig_identity_error ext order cat proxy id err hid
  · exact generateEDSConfig_identity_error ext order cat proxy id err hid

/-- Claim C11, witness: the proxy with the empty common name, in full mode and in
targeted mode. -/
theorem NewResponse_identity_error_witness :
    example_inputs.externals.GetServiceIdentityFromProxyCertificate
        example_inputs.stranger.CertificateCommonName
      = ("", some (Error.external "invalid certificate CN")) ∧
    NewResponse example_inputs.externals RangeOrder.stored example_inputs.catalog
        example_inputs.stranger none
      = ([], some (Error.external "invalid certificate CN")) ∧
    NewResponse example_inputs.externals RangeOrder.stored example_inputs.catalog
        example_inputs.stranger (some { ResourceNames := ["default/bookstore-v1|80"] })
      = ([], some (Error.external "invalid certificate CN")) :=
  ⟨by decide,
    NewResponse_identity_error example_inputs.externals RangeOrder.stored
      example_inputs.catalog example_inputs.stranger none "" _ (by decide),
    NewResponse_identity_error example_inputs.externals RangeOrder.stored
      example_inputs.catalog example_inputs.stranger _ "" _ (by decide)⟩

end eds

/-! ## Route responses: claims C12 to C15 -/

namespace rds

section
variable {InboundRoutes OutboundRoutes InboundPolicy EgressRoutes Resource : Type}

theorem ingress_fold
    (b : Builders InboundRoutes OutboundRoutes InboundPolicy EgressRoutes Resource)
    (cataloger : MeshCataloger InboundRoutes OutboundRoutes InboundPolicy EgressRoutes)
    (proxyServices : List MeshService) :
    ∀ init : List InboundPolicy,
      proxyServices.foldl
        (fun ingressTrafficPolicies svc =>
          match cataloger.GetIngressTrafficPolicy svc with
          | (_, some _) => ingressTrafficPolicies
          | (none, none) => ingressTrafficPolicies
          | (some ingressPolicy, none) =>
            b.MergeInboundPolicies ingressTrafficPolicies ingressPolicy.HTTPRoutePolicies)
        init
      = (proxyServices.filterMap (ingressContribution cataloger)).foldl
          b.MergeInboundPolicies init := by
  induction proxyServices with
  | nil => intro init; rfl
  | cons svc rest ih =>
    intro init
    simp only [List.foldl_cons, List.filterMap_cons]
    rw [ih]
    unfold ingressContribution
    rcases h : cataloger.GetIngressTrafficPolicy svc with ⟨_ | policy, _ | err⟩ <;> simp

/-- The ingress loop of `NewResponse` is the left fold of `MergeInboundPolicies`
over the contributions of the services. -/
theorem ingressTrafficPolicies_eq
    (b : Builders InboundRoutes OutboundRoutes InboundPolicy EgressRoutes Resource)
    (cataloger : MeshCataloger InboundRoutes OutboundRoutes InboundPolicy EgressRoutes)
    (proxyServices : List MeshService) :
    NewResponse.ingressTrafficPolicies b cataloger proxyServices
      = mergedIngressPolicies b cataloger proxyServices :=
  ingress_fold b cataloger proxyServices []

/-- The route response, once the services of the proxy are known: the four
groups in order. -/
theorem NewResponse_eq
    (b : Builders InboundRoutes OutboundRoutes InboundPolicy EgressRoutes Resource)
    (cataloger : MeshCataloger InboundRoutes OutboundRoutes InboundPolicy EgressRoutes)
    (proxy : Proxy) (cm : Manager) (proxyServices : List MeshService)
    (hsvc : cataloger.ListServicesForProxy proxy = (proxyServices, none)) :
    NewResponse b cataloger proxy cm
      = (inboundGroup b cataloger proxy cm proxyServices ++ outboundGroup b cataloger proxy ++
          ingressGroup b cataloger cm proxyServices ++ egressGroup b cataloger proxy, none) := by
  unfold NewResponse
  rw [hsvc]
  simp only [ingressTrafficPolicies_eq, foldl_append_singleton]
  unfold inboundGroup outboundGroup ingressGroup egressGroup statsHeadersOf
  congr 1
  cases cataloger.GetInboundMeshTrafficPolicy proxy.Identity proxyServices <;>
    cases cataloger.GetOutboundMeshTrafficPolicy proxy.Identity <;>
    cases (cataloger.GetEgressTrafficPolicy proxy.Identity).1 <;>
    by_cases hl : (mergedIngressPolicies b cataloger proxyServices).length = 0 <;>
    simp [hl, Nat.pos_iff_ne_zero]

theorem NewResponse_services_error
    (b : Builders InboundRoutes OutboundRoutes InboundPolicy EgressRoutes Resource)
    (cataloger : MeshCataloger InboundRoutes OutboundRoutes InboundPolicy EgressRoutes)
    (proxy : Proxy) (cm : Manager) (proxyServices : List MeshService) (err : Error)
    (hsvc : cataloger.ListServicesForProxy proxy = (proxyServices, some err)) :
    NewResponse b cataloger proxy cm = ([], some err) := by
  unfold NewResponse
  rw [hsvc]

/-- When the egress lookup returns an error and no policy, the response is the
response without egress configuration. -/
theorem NewResponse_egress_error_without_policy
    (b : Builders InboundRoutes OutboundRoutes InboundPolicy EgressRoutes Resource)
    (cataloger : MeshCataloger InboundRoutes OutboundRoutes InboundPolicy EgressRoutes)
    (proxy : Proxy) (cm : Manager) (err : Error)
    (heg : cataloger.GetEgressTrafficPolicy proxy.Identity = (none, some err)) :
    NewResponse b cataloger proxy cm = NewResponse b (withoutEgress cataloger) proxy cm := by
  rcases hsvc : cataloger.ListServicesForProxy proxy with ⟨svcs, _ | e⟩
  · rw [NewResponse_eq b cataloger proxy cm svcs hsvc,
      NewResponse_eq b (withoutEgress cataloger) proxy cm svcs hsvc]
    have h1 : egressGroup b cataloger proxy = [] := by
      unfold egressGroup
      rw [heg]
    have h2 : egressGroup b (withoutEgress cataloger) proxy = [] := rfl
    rw [h1, h2]
    rfl
  · rw [NewResponse_services_error b cataloger proxy cm svcs e hsvc,
      NewResponse_services_error b (withoutEgress cataloger) proxy cm svcs e hsvc]

end

end rds

namespace rds

/-- Claim C12: whenever `ListServicesForProxy` succeeds, `NewResponse` returns a nil
error and the concatenation, in this order, of the inbound-mesh route
configurations, the outbound-mesh route configurations, at most one ingress
route configuration and the egress route configurations; a nil inbound,
outbound or egress policy and an empty merged ingress policy list contribute
no resource. -/
theorem NewResponse_composition
    {InboundRoutes OutboundRoutes InboundPolicy EgressRoutes Resource : Type}
    (b : Builders InboundRoutes OutboundRoutes InboundPolicy EgressRoutes Resource)
    (cataloger : MeshCataloger InboundRoutes OutboundRoutes InboundPolicy EgressRoutes)
    (proxy : Proxy) (cm : Manager) (proxyServices : List MeshService)
    (hsvc : cataloger.ListServicesForProxy proxy = (proxyServices, none)) :
    NewResponse b cataloger proxy cm
      = (inboundGroup b cataloger proxy cm proxyServices ++ outboundGroup b cataloger proxy ++
          ingressGroup b cataloger cm proxyServices ++ egressGroup b cataloger proxy, none) ∧
    (ingressGroup b cataloger cm proxyServices).length ≤ 1 ∧
    (cataloger.GetInboundMeshTrafficPolicy proxy.Identity proxyServices = none →
      inboundGroup b cataloger proxy cm proxyServices = []) ∧
    (cataloger.GetOutboundMeshTrafficPolicy proxy.Identity = none →
      outboundGroup b cataloger proxy = []) ∧
    (mergedIngressPolicies b cataloger proxyServices = [] →
      ingressGroup b cataloger cm proxyServices = []) ∧
    ((cataloger.GetEgressTrafficPolicy proxy.Identity).1 = none →
      egressGroup b cataloger proxy = []) := by
  refine ⟨NewResponse_eq b cataloger proxy cm proxyServices hsvc, ?_, ?_, ?_, ?_, ?_⟩
  · unfold ingressGroup
    split <;> simp
  · intro h
    unfold inboundGroup
    rw [h]
  · intro h
    unfold outboundGroup
    rw [h]
  · intro h
    unfold ingressGroup
    rw [h]
    rfl
  · intro h
    unfold egressGroup
    rw [h]

/-- Claim C12, witness: the route response for the bookbuyer has the four groups in
order. -/
theorem NewResponse_composition_witness :
    example_inputs.routeCatalog.ListServicesForProxy example_inputs.bookbuyer
      = ([example_inputs.bookstoreV1, example_inputs.bookstoreApex, example_inputs.bookstoreV2,
          { Namespace := "default", Name := "broken", Subdomain := "", TargetPort := 80 }],
          none) ∧
    NewResponse example_inputs.builders example_inputs.routeCatalog example_inputs.bookbuyer
        example_inputs.manager
      = (["inbound:in@cluster.local", "outbound:out", "ingress:p1,p2,p3@cluster.local",
          "egress:eg"], none) :=
  ⟨rfl,
    ((NewResponse_composition example_inputs.builders example_inputs.routeCatalog
      example_inputs.bookbuyer example_inputs.manager _ rfl).1).trans (by decide)⟩

/-- Claim C13, what the code does: a cataloger whose egress lookup returns an error
together with a policy. The error is only logged and the policy is used: the
response ends with the egress route configuration, which a response without
egress configuration does not contain. -/
theorem NewResponse_egress_error_with_policy :
    example_inputs.routeCatalogEgressBoth.GetEgressTrafficPolicy
        example_inputs.bookbuyer.Identity
      = (some { HTTPRouteConfigsPerPort := "eg" },
          some (Error.external "egress lookup failed")) ∧
    NewResponse example_inputs.builders example_inputs.routeCatalogEgressBoth
        example_inputs.bookbuyer example_inputs.manager
      = (["inbound:in@cluster.local", "outbound:out", "ingress:p1,p2,p3@cluster.local",
          "egress:eg"], none) ∧
    NewResponse example_inputs.builders (withoutEgress example_inputs.routeCatalogEgressBoth)
        example_inputs.bookbuyer example_inputs.manager
      = (["inbound:in@cluster.local", "outbound:out", "ingress:p1,p2,p3@cluster.local"],
          none) :=
  ⟨rfl, by decide, by decide⟩

/-- Claim C14: if `ListServicesForProxy` returns an error, `NewResponse` returns
that same error together with the nil resource list. -/
theorem NewResponse_service_list_failure
    {InboundRoutes OutboundRoutes InboundPolicy EgressRoutes Resource : Type}
    (b : Builders InboundRoutes OutboundRoutes InboundPolicy EgressRoutes Resource)
    (cataloger : MeshCataloger InboundRoutes OutboundRoutes InboundPolicy EgressRoutes)
    (proxy : Proxy) (cm : Manager) (proxyServices : List MeshService) (err : Error)
    (hsvc : cataloger.ListServicesForProxy proxy = (proxyServices, some err)) :
    NewResponse b cataloger proxy cm = ([], some err) :=
  NewResponse_services_error b cataloger proxy cm proxyServices err hsvc

/-- Claim C14, witness: the cataloger that cannot list the services of a proxy. -/
theorem NewResponse_service_list_failure_witness :
    example_inputs.routeCatalogNoServices.ListServicesForProxy example_inputs.bookbuyer
      = ([], some (Error.external "cannot list services")) ∧
    NewResponse example_inputs.builders example_inputs.routeCatalogNoServices
        example_inputs.bookbuyer example_inputs.manager
      = ([], some (Error.external "cannot list services")) :=
  ⟨rfl, NewResponse_service_list_failure example_inputs.builders
    example_inputs.routeCatalogNoServices example_inputs.bookbuyer example_inputs.manager
    [] (Error.external "cannot list services") rfl⟩

/-- Claim C15: the ingress policy list of `NewResponse` is the left fold of
`MergeInboundPolicies`, starting from the empty list, over the services of the
proxy in the order of `ListServicesForProxy`, merging in the `HTTPRoutePolicies`
of each service; a service whose `GetIngressTrafficPolicy` call returns an
error or no policy contributes nothing; and when the service list is
available the response contains the ingress route configuration, built from
this list, if and only if the list is not empty. -/
theorem NewResponse_ingress_merge
    {InboundRoutes OutboundRoutes InboundPolicy EgressRoutes Resource : Type}
    (b : Builders InboundRoutes OutboundRoutes InboundPolicy EgressRoutes Resource)
    (cataloger : MeshCataloger InboundRoutes OutboundRoutes InboundPolicy EgressRoutes) :
    (∀ proxyServices : List MeshService,
      NewResponse.ingressTrafficPolicies b cataloger proxyServices
        = (proxyServices.filterMap (ingressContribution cataloger)).foldl
            b.MergeInboundPolicies []) ∧
    (∀ svc : MeshService,
      ((cataloger.GetIngressTrafficPolicy svc).2 ≠ none ∨
        (cataloger.GetIngressTrafficPolicy svc).1 = none) →
      ingressContribution cataloger svc = none) ∧
    (∀ (svc : MeshService) (policy : IngressTrafficPolicy InboundPolicy),
      cataloger.GetIngressTrafficPolicy svc = (some policy, none) →
      ingressContribution cataloger svc = some policy.HTTPRoutePolicies) ∧
    (∀ (proxy : Proxy) (cm : Manager) (proxyServices : List MeshService),
      cataloger.ListServicesForProxy proxy = (proxyServices, none) →
      NewResponse b cataloger proxy cm
        = (inboundGroup b cataloger proxy cm proxyServices ++ outboundGroup b cataloger proxy ++
            (if (NewResponse.ingressTrafficPolicies b cataloger proxyServices).length = 0 then []
              else [b.BuildIngressConfiguration
                (NewResponse.ingressTrafficPolicies b cataloger proxyServices)
                cm.GetTrustDomain]) ++
            egressGroup b cataloger proxy, none)) := by
  refine ⟨fun svcs => ingressTrafficPolicies_eq b cataloger svcs, ?_, ?_, ?_⟩
  · intro svc h
    unfold ingressContribution
    rcases h with h | h
    · rw [if_neg h]
    · rw [h]
      split <;> rfl
  · intro svc policy h
    unfold ingressContribution
    rw [h]
    rfl
  · intro proxy cm svcs hsvc
    rw [NewResponse_eq b cataloger proxy cm svcs hsvc, ingressTrafficPolicies_eq]
    rfl

/-- Claim C15, witness: of the four services of the bookbuyer, the one without
ingress policy and the one whose lookup fails are skipped; the policies of
the other two are merged in order and one ingress route configuration is
emitted. -/
theorem NewResponse_ingress_merge_witness :
    NewResponse.ingressTrafficPolicies example_inputs.builders example_inputs.routeCatalog
        [example_inputs.bookstoreV1, example_inputs.bookstoreApex, example_inputs.bookstoreV2,
          { Namespace := "default", Name := "broken", Subdomain := "", TargetPort := 80 }]
      = ["p1", "p2", "p3"] ∧
    ingressContribution example_inputs.routeCatalog example_inputs.bookstoreApex = none ∧
    ingressContribution example_inputs.routeCatalog
      { Namespace := "default", Name := "broken", Subdomain := "", TargetPort := 80 } = none ∧
    NewResponse example_inputs.builders example_inputs.routeCatalog example_inputs.bookbuyer
        example_inputs.manager
      = (["inbound:in@cluster.local", "outbound:out", "ingress:p1,p2,p3@cluster.local",
          "egress:eg"], none) :=
  ⟨((NewResponse_ingress_merge example_inputs.builders example_inputs.routeCatalog).1 _).trans
      (by decide),
    (NewResponse_ingress_merge example_inputs.builders example_inputs.routeCatalog).2.1
      example_inputs.bookstoreApex (Or.inr rfl),
    (NewResponse_ingress_merge example_inputs.builders example_inputs.routeCatalog).2.1
      _ (Or.inl (by decide)),
    ((NewResponse_ingress_merge example_inputs.builders example_inputs.routeCatalog).2.2.2
      example_inputs.bookbuyer example_inputs.manager _ rfl).trans (by decide)⟩

end rds

/-! ## Route table and traffic policies: claims C16 and C17 -/

theorem GoMap.set_of_not_mem {κ ν : Type} [DecidableEq κ] (m : GoMap κ ν) (k : κ) (v : ν)
    (h : k ∉ m.map Prod.fst) : GoMap.set m k v = m ++ [(k, v)] := by
  induction m with
  | nil => rfl
  | cons e m ih =>
    obtain ⟨k', v'⟩ := e
    simp only [List.map_cons, List.mem_cons, not_or] at h
    have hne : ¬ k' = k := fun e => h.1 e.symm
    simp only [GoMap.set, if_neg hne, List.cons_append, ih h.2]

theorem GoMap.foldl_set_of_nodup {κ ν : Type} [DecidableEq κ] (entries : List (κ × ν)) :
    ∀ m : GoMap κ ν, (entries.map Prod.fst).Nodup →
      (∀ k ∈ entries.map Prod.fst, k ∉ m.map Prod.fst) →
      entries.foldl (fun t e => GoMap.set t e.1 e.2) m = m ++ entries := by
  induction entries with
  | nil => intro m _ _; simp
  | cons e entries ih =>
    intro m hnd hdisj
    simp only [List.map_cons, List.nodup_cons] at hnd
    simp only [List.foldl_cons]
    rw [GoMap.set_of_not_mem m e.1 e.2 (hdisj e.1 (by simp))]
    rw [ih (m ++ [(e.1, e.2)]) hnd.2]
    · simp
    · intro k hk
      simp only [List.map_append, List.map_cons, List.map_nil, List.mem_append,
        List.mem_singleton, not_or]
      refine ⟨hdisj k (by simp [hk]), ?_⟩
      intro e'
      rw [e'] at hk
      exact hnd.1 hk

theorem GoMap.index_of_not_mem {κ ν : Type} [DecidableEq κ] (m : GoMap κ ν) (k : κ) (zero : ν)
    (h : k ∉ m.map Prod.fst) : GoMap.index m k zero = zero := by
  unfold GoMap.index
  have : m.find? (fun e => e.1 = k) = none := by
    rw [List.find?_eq_none]
    intro e he hk
    apply h
    simp only [decide_eq_true_eq] at hk
    rw [← hk]
    exact List.mem_map_of_mem Prod.fst he
  rw [this]

namespace catalog

/-- A list is cut in one way only at the first occurrence of an element. -/
theorem cut_unique {α : Type} (x : α) :
    ∀ (a a' r r' : List α), x ∉ a → x ∉ a' → a ++ x :: r = a' ++ x :: r' →
      a = a' ∧ r = r' := by
  intro a
  induction a with
  | nil =>
    intro a' r r' _ ha' h
    cases a' with
    | nil => exact ⟨rfl, by simpa using h⟩
    | cons y a' =>
      simp only [List.nil_append, List.cons_append, List.cons.injEq] at h
      exact absurd (by rw [h.1]; exact List.mem_cons_self _ _) ha'
  | cons y a ih =>
    intro a' r r' ha ha' h
    cases a' with
    | nil =>
      simp only [List.nil_append, List.cons_append, List.cons.injEq] at h
      exact absurd (by rw [← h.1]; exact List.mem_cons_self _ _) ha
    | cons y' a' =>
      simp only [List.cons_append, List.cons.injEq] at h
      obtain ⟨e1, e2⟩ := ih a' r r' (fun hx => ha (List.mem_cons_of_mem _ hx))
        (fun hx => ha' (List.mem_cons_of_mem _ hx)) h.2
      exact ⟨by rw [h.1, e1], e2⟩

theorem routeKey_data (ns rg m : String) :
    (routeKey ns rg m).data
      = "HTTPRouteGroup/".data ++ (ns.data ++ '/' :: (rg.data ++ '/' :: m.data)) := by
  simp [routeKey, String.data_append]

/-- The key determines the triple when namespace and route group name contain no
`/`. -/
theorem routeKey_injective (ns1 rg1 m1 ns2 rg2 m2 : String)
    (h1 : noSlash ns1) (h2 : noSlash rg1) (h3 : noSlash ns2) (h4 : noSlash rg2)
    (h : routeKey ns1 rg1 m1 = routeKey ns2 rg2 m2) :
    (ns1, rg1, m1) = (ns2, rg2, m2) := by
  have hd : (routeKey ns1 rg1 m1).data = (routeKey ns2 rg2 m2).data := by rw [h]
  rw [routeKey_data, routeKey_data] at hd
  have hd2 := List.append_cancel_left hd
  obtain ⟨e1, hd3⟩ := cut_unique '/' ns1.data ns2.data _ _
    (fun hx => h1 _ hx rfl) (fun hx => h3 _ hx rfl) hd2
  obtain ⟨e2, e3⟩ := cut_unique '/' rg1.data rg2.data _ _
    (fun hx => h2 _ hx rfl) (fun hx => h4 _ hx rfl) hd3
  rw [String.ext e1, String.ext e2, String.ext e3]

theorem getHTTPPathsPerRoute_flat (groups : List HTTPRouteGroup) :
    ∀ init : GoMap String Route,
      groups.foldl
        (fun routePolicies group =>
          group.Matches.foldl
            (fun routePolicies m =>
              GoMap.set routePolicies (routeKey group.Namespace group.Name m.Name) (routeOf m))
            routePolicies)
        init
      = (matchEntries groups).foldl (fun t e => GoMap.set t e.1 e.2) init := by
  induction groups with
  | nil => intro init; rfl
  | cons g groups ih =>
    intro init
    simp only [List.foldl_cons, matchEntries, List.flatMap_cons, List.foldl_append,
      List.foldl_map]
    rw [ih]
    rfl

theorem matchEntries_keys (groups : List HTTPRouteGroup) :
    (matchEntries groups).map Prod.fst
      = (matchTriples groups).map (fun t => routeKey t.1 t.2.1 t.2.2) := by
  induction groups with
  | nil => rfl
  | cons g groups ih =>
    simp only [matchEntries, matchTriples, List.flatMap_cons, List.map_append, List.map_map]
    simp only [matchEntries, matchTriples] at ih
    rw [ih]
    rfl

theorem matchTriples_noSlash (groups : List HTTPRouteGroup)
    (hs : ∀ g ∈ groups, noSlash g.Namespace ∧ noSlash g.Name) :
    ∀ t ∈ matchTriples groups, noSlash t.1 ∧ noSlash t.2.1 := by
  intro t ht
  simp only [matchTriples, List.mem_flatMap, List.mem_map] at ht
  obtain ⟨g, hg, m, _, e⟩ := ht
  rw [← e]
  exact hs g hg

/-- When no namespace and no route group name contains `/` and the triples of
the declared matches are pairwise distinct, the table holds one entry for each
declared match. -/
theorem getHTTPPathsPerRoute_no_collapse (groups : List HTTPRouteGroup)
    (hs : ∀ g ∈ groups, noSlash g.Namespace ∧ noSlash g.Name)
    (hd : (matchTriples groups).Nodup) :
    getHTTPPathsPerRoute groups = (matchEntries groups, none) := by
  unfold getHTTPPathsPerRoute
  rw [getHTTPPathsPerRoute_flat groups []]
  rw [GoMap.foldl_set_of_nodup (matchEntries groups) []]
  · rfl
  · rw [matchEntries_keys]
    apply List.Nodup.map_on _ hd
    intro t ht t' ht' e
    obtain ⟨a1, a2⟩ := matchTriples_noSlash groups hs t ht
    obtain ⟨b1, b2⟩ := matchTriples_noSlash groups hs t' ht'
    exact routeKey_injective _ _ _ _ _ _ a1 a2 b1 b2 e
  · intro k _
    simp

theorem getTrafficPolicyPerRoute_fold (routeMap : GoMap String Route) (service : MeshService)
    (edges : List PolicyEdge) :
    ∀ init : List TrafficTarget,
      edges.foldl
        (fun trafficPolicies edge =>
          if edge.Destination.Service = service then
            trafficPolicies ++
              [{ Name := edge.Name, Destination := edge.Destination, Source := edge.Source,
                 Route := attachedRoute routeMap edge }]
          else trafficPolicies)
        init
      = init ++ (edges.filter (fun edge => edge.Destination.Service = service)).map
          (fun edge =>
            { Name := edge.Name, Destination := edge.Destination, Source := edge.Source,
              Route := attachedRoute routeMap edge }) := by
  induction edges with
  | nil => intro init; simp
  | cons e edges ih =>
    intro init
    simp only [List.foldl_cons]
    rw [ih]
    by_cases h : e.Destination.Service = service
    · simp [h]
    · simp [h]

end catalog

namespace catalog

/-- Claim C16, counterexample: the triples (`a/b`, `c`, `d`) and (`a`, `b/c`, `d`)
are distinct and have the same key `HTTPRouteGroup/a/b/c/d`; the matches of
two such route groups collapse into one table entry. -/
theorem routeKey_collision_counterexample :
    (("a/b", "c", "d") : String × String × String) ≠ ("a", "b/c", "d") ∧
    routeKey "a/b" "c" "d" = "HTTPRouteGroup/a/b/c/d" ∧
    routeKey "a" "b/c" "d" = "HTTPRouteGroup/a/b/c/d" ∧
    getHTTPPathsPerRoute
        [{ Namespace := "a/b", Name := "c",
           Matches := [{ Name := "d", PathRegex := "/first", Methods := [], Headers := [] }] },
         { Namespace := "a", Name := "b/c",
           Matches := [{ Name := "d", PathRegex := "/second", Methods := [], Headers := [] }] }]
      = ([("HTTPRouteGroup/a/b/c/d",
            { PathRegex := "/second", Methods := [], Headers := [] })], none) := by
  decide

/-- Claim C16, amended: with the key of a match built as
`HTTPRouteGroup/<namespace>/<routeGroupName>/<matchName>`, any two distinct
triples whose namespaces and route group names contain no `/` have different
keys; so when the triples of the declared matches are pairwise distinct the
table of `getHTTPPathsPerRoute` has exactly one entry for each declared
match. -/
theorem routeKey_injective_without_slash :
    (∀ ns1 rg1 m1 ns2 rg2 m2 : String,
      noSlash ns1 → noSlash rg1 → noSlash ns2 → noSlash rg2 →
      (ns1, rg1, m1) ≠ (ns2, rg2, m2) → routeKey ns1 rg1 m1 ≠ routeKey ns2 rg2 m2) ∧
    (∀ groups : List HTTPRouteGroup,
      (∀ g ∈ groups, noSlash g.Namespace ∧ noSlash g.Name) → (matchTriples groups).Nodup →
      getHTTPPathsPerRoute groups = (matchEntries groups, none) ∧
      (getHTTPPathsPerRoute groups).1.length = (matchTriples groups).length) := by
  refine ⟨?_, ?_⟩
  · intro ns1 rg1 m1 ns2 rg2 m2 h1 h2 h3 h4 hne hk
    exact hne (routeKey_injective ns1 rg1 m1 ns2 rg2 m2 h1 h2 h3 h4 hk)
  · intro groups hs hd
    have h := getHTTPPathsPerRoute_no_collapse groups hs hd
    refine ⟨h, ?_⟩
    rw [h]
    have := congrArg List.length (matchEntries_keys groups)
    simpa using this

/-- Claim C16, witness: the matches `buy` and `sell` of the route group `rg` of
namespace `ns` have different keys and give two table entries. -/
theorem routeKey_injective_without_slash_witness :
    routeKey "ns" "rg" "buy" ≠ routeKey "ns" "rg" "sell" ∧
    getHTTPPathsPerRoute [example_inputs.routeGroup]
      = ([("HTTPRouteGroup/ns/rg/buy",
            { PathRegex := "/buy", Methods := ["GET"], Headers := [("host", "example.com")] }),
          ("HTTPRouteGroup/ns/rg/sell",
            { PathRegex := "/sell", Methods := ["GET"], Headers := [] })], none) ∧
    (getHTTPPathsPerRoute [example_inputs.routeGroup]).1.length = 2 :=
  ⟨routeKey_injective_without_slash.1 "ns" "rg" "buy" "ns" "rg" "sell"
      (by decide) (by decide) (by decide) (by decide) (by decide),
    ((routeKey_injective_without_slash.2 [example_inputs.routeGroup] (by decide)
      (by decide)).1).trans (by decide),
    ((routeKey_injective_without_slash.2 [example_inputs.routeGroup] (by decide)
      (by decide)).2).trans (by decide)⟩

/-- Claim C17: `getTrafficPolicyPerRoute` returns no error and, in order, exactly one
TrafficTarget with exactly one Route for every raw policy edge whose
destination is the given service; the Route is the zero-value Route (empty
PathRegex, nil Methods) when the edge has no match reference or its reference
is not a key of the route map. -/
theorem getTrafficPolicyPerRoute_zero_route (edges : List PolicyEdge)
    (routeMap : GoMap String Route) (service : MeshService) :
    (getTrafficPolicyPerRoute edges routeMap service).2 = none ∧
    (getTrafficPolicyPerRoute edges routeMap service).1
      = (edges.filter (fun edge => edge.Destination.Service = service)).map
          (fun edge =>
            { Name := edge.Name, Destination := edge.Destination, Source := edge.Source,
              Route := attachedRoute routeMap edge }) ∧
    (getTrafficPolicyPerRoute edges routeMap service).1.length
      = (edges.filter (fun edge => edge.Destination.Service = service)).length ∧
    (∀ edge : PolicyEdge,
      (edge.MatchRef = none ∨ ∃ key, edge.MatchRef = some key ∧ key ∉ routeMap.map Prod.fst) →
      attachedRoute routeMap edge = Route.zero ∧
      (attachedRoute routeMap edge).PathRegex = "" ∧
      (attachedRoute routeMap edge).Methods = []) := by
  have h : (getTrafficPolicyPerRoute edges routeMap service).1
      = (edges.filter (fun edge => edge.Destination.Service = service)).map
          (fun edge =>
            { Name := edge.Name, Destination := edge.Destination, Source := edge.Source,
              Route := attachedRoute routeMap edge }) := by
    unfold getTrafficPolicyPerRoute
    simp only [getTrafficPolicyPerRoute_fold routeMap service edges [], List.nil_append]
  refine ⟨rfl, h, by rw [h, List.length_map], ?_⟩
  intro edge hedge
  have hz : attachedRoute routeMap edge = Route.zero := by
    unfold attachedRoute
    rcases hedge with hn | ⟨key, hk, hnot⟩
    · rw [hn]
    · rw [hk]
      exact GoMap.index_of_not_mem routeMap key Route.zero hnot
  rw [hz]
  exact ⟨rfl, rfl, rfl⟩

/-- Claim C17, witness: the target from the bookbuyer to the bookstore, which has no
route-group reference, yields a single TrafficTarget with the zero-value
Route; so does a target whose reference is not in the route map. -/
theorem getTrafficPolicyPerRoute_zero_route_witness :
    getTrafficPolicyPerRoute [example_inputs.bookbuyerToBookstore]
        (getHTTPPathsPerRoute [example_inputs.routeGroup]).1 example_inputs.bookstore
      = ([{ Name := "bookbuyer-access-bookstore",
            Destination := { ServiceAccount := "bookstore", Namespace := "ns",
                             Service := example_inputs.bookstore },
            Source := { ServiceAccount := "bookbuyer", Namespace := "ns",
                        Service := example_inputs.bookbuyerService },
            Route := { PathRegex := "", Methods := [], Headers := [] } }], none) ∧
    attachedRoute (getHTTPPathsPerRoute [example_inputs.routeGroup]).1
        { example_inputs.bookbuyerToBookstore with MatchRef := some "HTTPRouteGroup/ns/rg/lend" }
      = Route.zero :=
  ⟨by
      have h := getTrafficPolicyPerRoute_zero_route [example_inputs.bookbuyerToBookstore]
        (getHTTPPathsPerRoute [example_inputs.routeGroup]).1 example_inputs.bookstore
      exact Prod.ext (h.2.1.trans (by decide)) h.1,
    ((getTrafficPolicyPerRoute_zero_route [] (getHTTPPathsPerRoute [example_inputs.routeGroup]).1
      example_inputs.bookstore).2.2.2
      { example_inputs.bookbuyerToBookstore with MatchRef := some "HTTPRouteGroup/ns/rg/lend" }
      (Or.inr ⟨"HTTPRouteGroup/ns/rg/lend", rfl, by decide⟩)).1⟩

end catalog

/-! ## Proxyless patch: claims C18 and C19 -/

namespace injector

section
variable {σ : Type}

/-- A failed certificate issuance ends the call at once. -/
theorem createPatchProxyless_of_issue_error (ext : Externals) (wh : mutatingWebhook σ)
    (cluster : σ) (pod : Pod) (req : AdmissionRequest) (proxyUUID : String)
    (cert : Certificate) (err : Error)
    (h : wh.certManager.IssueCertificate
        (ext.NewXDSCertCommonName proxyUUID ext.constants.KindSidecar
          pod.Spec.ServiceAccountName req.Namespace)
        ext.constants.XDSCertificateValidityPeriod = (cert, some err)) :
    createPatchProxyless ext wh cluster pod req proxyUUID
      = { patch := "", err := some err, pod := pod, cluster := cluster } := by
  unfold createPatchProxyless
  simp only [h]

/-- On a dry run the cluster is the one the call started with. -/
theorem createPatchProxyless_dry_run_cluster (ext : Externals) (wh : mutatingWebhook σ)
    (cluster : σ) (pod : Pod) (req : AdmissionRequest) (proxyUUID : String)
    (hdry : req.DryRun = some true) :
    (createPatchProxyless ext wh cluster pod req proxyUUID).cluster = cluster := by
  unfold createPatchProxyless
  simp only [hdry, if_true]
  split
  · rfl
  · split
    · rfl
    · rfl

/-- A call that returns no error went through every step: the pod it leaves
behind is the pod of `rewriteHealthProbes` with the two volumes, the init
container unless the pod is for Windows, the sidecar and the label. -/
theorem createPatchProxyless_pod_of_ok (ext : Externals) (wh : mutatingWebhook σ)
    (cluster : σ) (pod : Pod) (req : AdmissionRequest) (proxyUUID : String)
    (hok : (createPatchProxyless ext wh cluster pod req proxyUUID).err = none) :
    (createPatchProxyless ext wh cluster pod req proxyUUID).pod.Spec.Volumes
      = (ext.rewriteHealthProbes pod).1.Spec.Volumes ++
        [{ Name := ext.constants.grpcBootstrapConfigVolume,
           ConfigMap := some ("grpc-bootstrap-config-" ++ proxyUUID), Secret := none },
         { Name := ext.constants.grpcBootstrapSecretsVolume,
           ConfigMap := none, Secret := some ("grpc-bootstrap-secrets-" ++ proxyUUID) }] ∧
    (createPatchProxyless ext wh cluster pod req proxyUUID).pod.Spec.InitContainers
      = (if ext.EqualFold
            (GoMap.index (ext.rewriteHealthProbes pod).1.Spec.NodeSelector "kubernetes.io/os" "")
            ext.constants.OSWindows = true
          then (ext.rewriteHealthProbes pod).1.Spec.InitContainers
          else (ext.rewriteHealthProbes pod).1.Spec.InitContainers ++
            [createPatchProxyless.initContainer ext wh
              (createPatchProxyless.withVolumes ext (ext.rewriteHealthProbes pod).1
                ("grpc-bootstrap-config-" ++ proxyUUID) ("grpc-bootstrap-secrets-" ++ proxyUUID))
              req.Namespace]) ∧
    (createPatchProxyless ext wh cluster pod req proxyUUID).pod.Spec.Containers
      = (ext.rewriteHealthProbes pod).1.Spec.Containers ++
        [getGrpcSidecarContainerSpec ext (ext.rewriteHealthProbes pod).1 wh.configurator
          (ext.rewriteHealthProbes pod).2
          (GoMap.index (ext.rewriteHealthProbes pod).1.Spec.NodeSelector
            "kubernetes.io/os" "")] ∧
    (createPatchProxyless ext wh cluster pod req proxyUUID).pod.Labels
      = some (GoMap.set ((ext.rewriteHealthProbes pod).1.Labels.getD [])
          ext.constants.GRPCUniqueIDLabelName proxyUUID) ∧
    ((createPatchProxyless ext wh cluster pod req proxyUUID).patch,
      (createPatchProxyless ext wh cluster pod req proxyUUID).err)
      = ext.marshalPatches req (createPatchProxyless ext wh cluster pod req proxyUUID).pod := by
  simp only [createPatchProxyless] at hok ⊢
  rcases h1 : wh.certManager.IssueCertificate
      (ext.NewXDSCertCommonName proxyUUID ext.constants.KindSidecar
        pod.Spec.ServiceAccountName req.Namespace)
      ext.constants.XDSCertificateValidityPeriod with ⟨cert, _ | e⟩
  · rw [h1] at hok
    simp only [] at hok ⊢
    rcases h2 : (if req.DryRun = some true then (cluster, (none : Option Error))
        else createGrpcBootstrapConfig ext wh cluster ("grpc-bootstrap-config-" ++ proxyUUID)
          ("grpc-bootstrap-secrets-" ++ proxyUUID) req.Namespace wh.osmNamespace cert
          proxyUUID) with ⟨c2, _ | e⟩
    · rw [h2] at hok
      simp only [] at hok ⊢
      rcases h3 : ext.verifyPrerequisites
          (GoMap.index (createPatchProxyless.withVolumes ext (ext.rewriteHealthProbes pod).1
            ("grpc-bootstrap-config-" ++ proxyUUID)
            ("grpc-bootstrap-secrets-" ++ proxyUUID)).Spec.NodeSelector
            "kubernetes.io/os" "") with _ | e
      · by_cases hfold : ext.EqualFold
            (GoMap.index (ext.rewriteHealthProbes pod).1.Spec.NodeSelector "kubernetes.io/os" "")
            ext.constants.OSWindows = true
        · simp [createPatchProxyless.withVolumes, hfold, getGrpcSidecarContainerSpec]
        · simp [createPatchProxyless.withVolumes, hfold, getGrpcSidecarContainerSpec]
      · rw [h3] at hok
        exact absurd hok (by simp)
    · rw [h2] at hok
      exact absurd hok (by simp)
  · rw [h1] at hok
    exact absurd hok (by simp)

end

end injector

namespace injector

/-- Claim C18: for every admission request whose DryRun flag is true,
`createPatchProxyless` leaves the cluster (its config maps and secrets) as it
found it and its result does not depend on the Kubernetes client, which is
only reached through `createGrpcBootstrapConfig`; and the patch is still
computed: when the certificate is issued and the prerequisites hold,
the call returns the marshalled patches of the pod to which the two volumes,
the sidecar and the label have been added. -/
theorem createPatchProxyless_dry_run {σ : Type} (ext : Externals) (wh : mutatingWebhook σ)
    (cluster : σ) (pod : Pod) (req : AdmissionRequest) (proxyUUID : String)
    (hdry : req.DryRun = some true) :
    (createPatchProxyless ext wh cluster pod req proxyUUID).cluster = cluster ∧
    (∀ kubeClient : KubeClient σ,
      createPatchProxyless ext { wh with kubeClient := kubeClient } cluster pod req proxyUUID
        = createPatchProxyless ext wh cluster pod req proxyUUID) ∧
    (∀ cert : Certificate,
      wh.certManager.IssueCertificate
          (ext.NewXDSCertCommonName proxyUUID ext.constants.KindSidecar
            pod.Spec.ServiceAccountName req.Namespace)
          ext.constants.XDSCertificateValidityPeriod = (cert, none) →
      ext.verifyPrerequisites
          (GoMap.index (ext.rewriteHealthProbes pod).1.Spec.NodeSelector "kubernetes.io/os" "")
        = none →
      ((createPatchProxyless ext wh cluster pod req proxyUUID).patch,
        (createPatchProxyless ext wh cluster pod req proxyUUID).err)
        = ext.marshalPatches req (createPatchProxyless ext wh cluster pod req proxyUUID).pod ∧
      (createPatchProxyless ext wh cluster pod req proxyUUID).pod.Spec.Volumes
        = (ext.rewriteHealthProbes pod).1.Spec.Volumes ++
          [{ Name := ext.constants.grpcBootstrapConfigVolume,
             ConfigMap := some ("grpc-bootstrap-config-" ++ proxyUUID), Secret := none },
           { Name := ext.constants.grpcBootstrapSecretsVolume,
             ConfigMap := none, Secret := some ("grpc-bootstrap-secrets-" ++ proxyUUID) }] ∧
      (createPatchProxyless ext wh cluster pod req proxyUUID).pod.Spec.Containers
        = (ext.rewriteHealthProbes pod).1.Spec.Containers ++
          [getGrpcSidecarContainerSpec ext (ext.rewriteHealthProbes pod).1 wh.configurator
            (ext.rewriteHealthProbes pod).2
            (GoMap.index (ext.rewriteHealthProbes pod).1.Spec.NodeSelector
              "kubernetes.io/os" "")] ∧
      (createPatchProxyless ext wh cluster pod req proxyUUID).pod.Labels
        = some (GoMap.set ((ext.rewriteHealthProbes pod).1.Labels.getD [])
            ext.constants.GRPCUniqueIDLabelName proxyUUID)) := by
  refine ⟨createPatchProxyless_dry_run_cluster ext wh cluster pod req proxyUUID hdry, ?_, ?_⟩
  · intro kubeClient
    simp only [createPatchProxyless, hdry, if_true]
    rfl
  intro cert h1 h3
  have h3' : ext.verifyPrerequisites
      (GoMap.index (createPatchProxyless.withVolumes ext (ext.rewriteHealthProbes pod).1
        ("grpc-bootstrap-config-" ++ proxyUUID)
        ("grpc-bootstrap-secrets-" ++ proxyUUID)).Spec.NodeSelector
        "kubernetes.io/os" "") = none := h3
  simp only [createPatchProxyless, hdry, h1, h3', if_true]
  by_cases hfold : ext.EqualFold
      (GoMap.index (ext.rewriteHealthProbes pod).1.Spec.NodeSelector "kubernetes.io/os" "")
      ext.constants.OSWindows = true
  · simp [createPatchProxyless.withVolumes, hfold, getGrpcSidecarContainerSpec]
  · simp [createPatchProxyless.withVolumes, hfold, getGrpcSidecarContainerSpec]

/-- Claim C18, witness: a dry run on the empty cluster leaves it empty and returns
the patch of the pod with the two volumes, the init container and the sidecar;
the same request without the dry-run flag writes one config map and one
secret. -/
theorem createPatchProxyless_dry_run_witness :
    example_inputs.dryRunRequest.DryRun = some true ∧
    (createPatchProxyless example_inputs.injectorExternals example_inputs.webhook
      example_inputs.emptyCluster example_inputs.linuxPod example_inputs.dryRunRequest
      "uuid-1").cluster = example_inputs.emptyCluster ∧
    ((createPatchProxyless example_inputs.injectorExternals example_inputs.webhook
      example_inputs.emptyCluster example_inputs.linuxPod example_inputs.dryRunRequest
      "uuid-1").patch,
      (createPatchProxyless example_inputs.injectorExternals example_inputs.webhook
        example_inputs.emptyCluster example_inputs.linuxPod example_inputs.dryRunRequest
        "uuid-1").err) = ("volumes=2 init=1 containers=2", none) ∧
    (createPatchProxyless example_inputs.injectorExternals example_inputs.webhook
      example_inputs.emptyCluster example_inputs.linuxPod example_inputs.request
      "uuid-1").cluster ≠ example_inputs.emptyCluster :=
  ⟨rfl,
    (createPatchProxyless_dry_run example_inputs.injectorExternals example_inputs.webhook
      example_inputs.emptyCluster example_inputs.linuxPod example_inputs.dryRunRequest
      "uuid-1" rfl).1,
    ((createPatchProxyless_dry_run example_inputs.injectorExternals example_inputs.webhook
      example_inputs.emptyCluster example_inputs.linuxPod example_inputs.dryRunRequest
      "uuid-1" rfl).2.2
      { GetCertificateChain := "chain", GetPrivateKey := "key", GetIssuingCA := "ca" }
      (by decide) (by decide)).1.trans (by decide),
    by decide⟩

/-- Claim C19: when `createPatchProxyless` succeeds, the init containers of the pod
are left as they were if the value of its node selector for `kubernetes.io/os`
equals the Windows constant under case folding, and otherwise exactly one
init container is appended after the existing ones; in both cases exactly one
sidecar container is appended to the containers. The pod before is the pod as
`rewriteHealthProbes` left it. -/
theorem createPatchProxyless_init_container {σ : Type} (ext : Externals)
    (wh : mutatingWebhook σ) (cluster : σ) (pod : Pod) (req : AdmissionRequest)
    (proxyUUID : String)
    (hok : (createPatchProxyless ext wh cluster pod req proxyUUID).err = none) :
    (ext.EqualFold
        (GoMap.index (ext.rewriteHealthProbes pod).1.Spec.NodeSelector "kubernetes.io/os" "")
        ext.constants.OSWindows = true →
      (createPatchProxyless ext wh cluster pod req proxyUUID).pod.Spec.InitContainers
        = (ext.rewriteHealthProbes pod).1.Spec.InitContainers) ∧
    (ext.EqualFold
        (GoMap.index (ext.rewriteHealthProbes pod).1.Spec.NodeSelector "kubernetes.io/os" "")
        ext.constants.OSWindows = false →
      (createPatchProxyless ext wh cluster pod req proxyUUID).pod.Spec.InitContainers
        = (ext.rewriteHealthProbes pod).1.Spec.InitContainers ++
          [createPatchProxyless.initContainer ext wh
            (createPatchProxyless.withVolumes ext (ext.rewriteHealthProbes pod).1
              ("grpc-bootstrap-config-" ++ proxyUUID) ("grpc-bootstrap-secrets-" ++ proxyUUID))
            req.Namespace]) ∧
    (createPatchProxyless ext wh cluster pod req proxyUUID).pod.Spec.Containers
      = (ext.rewriteHealthProbes pod).1.Spec.Containers ++
        [getGrpcSidecarContainerSpec ext (ext.rewriteHealthProbes pod).1 wh.configurator
          (ext.rewriteHealthProbes pod).2
          (GoMap.index (ext.rewriteHealthProbes pod).1.Spec.NodeSelector
            "kubernetes.io/os" "")] := by
  obtain ⟨_, hinit, hcont, _, _⟩ :=
    createPatchProxyless_pod_of_ok ext wh cluster pod req proxyUUID hok
  refine ⟨?_, ?_, hcont⟩
  · intro hfold
    rw [hinit, if_pos hfold]
  · intro hfold
    rw [hinit, if_neg (by rw [hfold]; simp)]

/-- Claim C19, witness: the pod for a Windows node (`Windows`, in capitals) gets no
init container and the pod for a Linux node gets one; both get the sidecar
after their own container. -/
theorem createPatchProxyless_init_container_witness :
    (createPatchProxyless example_inputs.injectorExternals example_inputs.webhook
      example_inputs.emptyCluster example_inputs.windowsPod example_inputs.request
      "uuid-1").err = none ∧
    (createPatchProxyless example_inputs.injectorExternals example_inputs.webhook
      example_inputs.emptyCluster example_inputs.windowsPod example_inputs.request
      "uuid-1").pod.Spec.InitContainers = [] ∧
    ((createPatchProxyless example_inputs.injectorExternals example_inputs.webhook
      example_inputs.emptyCluster example_inputs.linuxPod example_inputs.request
      "uuid-1").pod.Spec.InitContainers.map (fun c => c.Name)) = ["osm-init"] ∧
    ((createPatchProxyless example_inputs.injectorExternals example_inputs.webhook
      example_inputs.emptyCluster example_inputs.windowsPod example_inputs.request
      "uuid-1").pod.Spec.Containers.map (fun c => c.Name)) = ["app", "grpc-client"] :=
  ⟨by decide,
    ((createPatchProxyless_init_container example_inputs.injectorExternals
      example_inputs.webhook example_inputs.emptyCluster example_inputs.windowsPod
      example_inputs.request "uuid-1" (by decide)).1 (by decide)),
    by
      have h := (createPatchProxyless_init_container example_inputs.injectorExternals
        example_inputs.webhook example_inputs.emptyCluster example_inputs.linuxPod
        example_inputs.request "uuid-1" (by decide)).2.1 (by decide)
      rw [h]
      decide,
    by
      have h := (createPatchProxyless_init_container example_inputs.injectorExternals
        example_inputs.webhook example_inputs.emptyCluster example_inputs.windowsPod
        example_inputs.request "uuid-1" (by decide)).2.2
      rw [h]
      decide⟩

end injector

/-! ## Canonical names and independent resolution: claims C21 and C22 -/

namespace strings

/-- Every field that the scanning loop of `FieldsFunc` produces is non-empty and
free of separators, provided the fields recorded so far and the field being
read are. -/
theorem FieldsFunc.loop_fields_ok (f : Char → Bool) (l : List Char) :
    ∀ (start : Option (List Char)) (spans : List String),
      (∀ t ∈ spans, t.data ≠ [] ∧ ∀ c ∈ t.data, f c = false) →
      (∀ cur, start = some cur → cur ≠ [] ∧ ∀ c ∈ cur, f c = false) →
      ∀ t ∈ FieldsFunc.loop f l start spans, t.data ≠ [] ∧ ∀ c ∈ t.data, f c = false := by
  induction l with
  | nil =>
    intro start spans hs hc t ht
    cases start with
    | none =>
      simp only [FieldsFunc.loop] at ht
      exact hs t ht
    | some cur =>
      simp only [FieldsFunc.loop, List.mem_append, List.mem_singleton] at ht
      rcases ht with ht | ht
      · exact hs t ht
      · rw [ht]
        exact hc cur rfl
  | cons r rest ih =>
    intro start spans hs hc t ht
    by_cases hr : f r = true
    · cases start with
      | none =>
        simp only [FieldsFunc.loop, hr, if_true] at ht
        exact ih none spans hs (fun cur h => absurd h (by simp)) t ht
      | some cur =>
        simp only [FieldsFunc.loop, hr, if_true] at ht
        refine ih none (spans ++ [String.mk cur]) ?_ (fun cur h => absurd h (by simp)) t ht
        intro u hu
        rcases List.mem_append.mp hu with hu | hu
        · exact hs u hu
        · rw [List.mem_singleton.mp hu]
          exact hc cur rfl
    · have hr' : f r = false := by simpa using hr
      cases start with
      | none =>
        simp only [FieldsFunc.loop, hr', Bool.false_eq_true, if_false] at ht
        refine ih (some [r]) spans hs ?_ t ht
        intro cur h
        rw [← Option.some.inj h]
        refine ⟨by simp, ?_⟩
        intro c hc'
        rw [List.mem_singleton.mp hc']
        exact hr'
      | some cur =>
        simp only [FieldsFunc.loop, hr', Bool.false_eq_true, if_false] at ht
        refine ih (some (cur ++ [r])) spans hs ?_ t ht
        intro cur' h
        rw [← Option.some.inj h]
        refine ⟨by simp, ?_⟩
        intro c hc'
        rcases List.mem_append.mp hc' with hc' | hc'
        · exact (hc cur rfl).2 c hc'
        · rw [List.mem_singleton.mp hc']
          exact hr'

/-- The fields of `FieldsFunc` are non-empty and free of separators. -/
theorem FieldsFunc_fields_ok (s : String) (f : Char → Bool) :
    ∀ t ∈ FieldsFunc s f, t.data ≠ [] ∧ ∀ c ∈ t.data, f c = false :=
  FieldsFunc.loop_fields_ok f s.data none [] (by simp) (fun cur h => absurd h (by simp))

end strings

namespace eds

theorem ne_empty_of_data_ne_nil (t : String) (h : t.data ≠ []) : t ≠ "" := by
  intro e
  apply h
  rw [e]

theorem noSeparator_of_splitFunc_false (t : String) (h : ∀ c ∈ t.data, splitFunc c = false) :
    noSeparator t := by
  intro c hc
  have := h c hc
  simp only [splitFunc, Bool.or_eq_false_iff, beq_eq_false_iff_ne, ne_eq] at this
  exact this

/-- What an accepted cluster name was split into. -/
theorem clusterToMeshSvc_accepts (s : String) (m : MeshService)
    (h : clusterToMeshSvc s = (m, none)) :
    ∃ c0 c1 c2, strings.FieldsFunc s splitFunc = [c0, c1, c2] ∧
      decimalValue c2 ≤ 65535 ∧
      m = { Namespace := c0, Name := c1, Subdomain := "", TargetPort := decimalValue c2 } := by
  by_cases h3 : (strings.FieldsFunc s splitFunc).length = 3
  · match hf : strings.FieldsFunc s splitFunc, h3 with
    | [c0, c1, c2], _ =>
      refine ⟨c0, c1, c2, rfl, ?_⟩
      by_cases hnum : isDecimalNumeral c2 ∧ decimalValue c2 ≤ 65535
      · rw [clusterToMeshSvc_of_fields_ok s c0 c1 c2 hf hnum.1 hnum.2] at h
        exact ⟨hnum.2, (Prod.mk.inj h).1.symm⟩
      · obtain ⟨e, he⟩ := clusterToMeshSvc_of_fields_err s c0 c1 c2 hf hnum
        rw [he] at h
        exact absurd (Prod.mk.inj h).2 (by simp)
  · rw [clusterToMeshSvc_of_length_ne s h3] at h
    exact absurd (Prod.mk.inj h).2 (by simp)

/-- Claim C21: for every string that `clusterToMeshSvc` accepts with result `m`, the
namespace and the name of `m` are non-empty and contain neither `/` nor `|`,
and parsing the canonical name `m.Namespace/m.Name|decimal(m.TargetPort)`
succeeds and returns `m` again. -/
theorem clusterToMeshSvc_canonical (s : String) (m : MeshService)
    (h : clusterToMeshSvc s = (m, none)) :
    m.Namespace ≠ "" ∧ m.Name ≠ "" ∧ noSeparator m.Namespace ∧ noSeparator m.Name ∧
    clusterToMeshSvc (m.Namespace ++ "/" ++ m.Name ++ "|" ++ decimal m.TargetPort)
      = (m, none) := by
  obtain ⟨c0, c1, c2, hf, hv, hm⟩ := clusterToMeshSvc_accepts s m h
  have hok := strings.FieldsFunc_fields_ok s splitFunc
  rw [hf] at hok
  obtain ⟨n0, s0⟩ := hok c0 (by simp)
  obtain ⟨n1, s1⟩ := hok c1 (by simp)
  have e0 := ne_empty_of_data_ne_nil c0 n0
  have e1 := ne_empty_of_data_ne_nil c1 n1
  have p0 := noSeparator_of_splitFunc_false c0 s0
  have p1 := noSeparator_of_splitFunc_false c1 s1
  rw [hm]
  exact ⟨e0, e1, p0, p1, clusterToMeshSvc_plain c0 c1 (decimalValue c2) e0 e1 p0 p1 hv⟩

/-- Claim C21, witness: `/foo//bar||0080|` is accepted; its canonical name is
`foo/bar|80`, which parses to the same service. -/
theorem clusterToMeshSvc_canonical_witness :
    clusterToMeshSvc "/foo//bar||0080|"
      = ({ Namespace := "foo", Name := "bar", Subdomain := "", TargetPort := 80 }, none) ∧
    "foo" ++ "/" ++ "bar" ++ "|" ++ decimal 80 = "foo/bar|80" ∧
    clusterToMeshSvc ("foo" ++ "/" ++ "bar" ++ "|" ++ decimal 80)
      = ({ Namespace := "foo", Name := "bar", Subdomain := "", TargetPort := 80 }, none) :=
  ⟨by decide, by decide,
    (clusterToMeshSvc_canonical "/foo//bar||0080|"
      { Namespace := "foo", Name := "bar", Subdomain := "", TargetPort := 80 }
      (by decide)).2.2.2.2⟩

/-- Claim C22: for a fixed catalog and a proxy with a resolvable identity, the
resources that `fulfillEDSRequest` returns for the names `a ++ b` are the
resources for `a` followed by the resources for `b`; the result never has more
entries than the request has names, and a name requested twice is answered
twice. -/
theorem fulfillEDSRequest_independent {Resource : Type} (ext : Externals Resource)
    (cat : MeshCataloger) (proxy : Proxy) (id : ServiceIdentity)
    (hid : ext.GetServiceIdentityFromProxyCertificate proxy.CertificateCommonName = (id, none)) :
    (∀ a b : List String,
      (fulfillEDSRequest ext cat proxy (some { ResourceNames := a ++ b })).1
        = (fulfillEDSRequest ext cat proxy (some { ResourceNames := a })).1 ++
          (fulfillEDSRequest ext cat proxy (some { ResourceNames := b })).1) ∧
    (∀ names : List String,
      (fulfillEDSRequest ext cat proxy (some { ResourceNames := names })).1.length
        ≤ names.length) ∧
    (∀ name : String,
      (fulfillEDSRequest ext cat proxy (some { ResourceNames := [name, name] })).1
        = (fulfillEDSRequest ext cat proxy (some { ResourceNames := [name] })).1 ++
          (fulfillEDSRequest ext cat proxy (some { ResourceNames := [name] })).1) := by
  have happ : ∀ a b : List String,
      (fulfillEDSRequest ext cat proxy (some { ResourceNames := a ++ b })).1
        = (fulfillEDSRequest ext cat proxy (some { ResourceNames := a })).1 ++
          (fulfillEDSRequest ext cat proxy (some { ResourceNames := b })).1 := by
    intro a b
    rw [fulfillEDSRequest_eq ext cat proxy (a ++ b) id hid,
      fulfillEDSRequest_eq ext cat proxy a id hid, fulfillEDSRequest_eq ext cat proxy b id hid]
    exact List.filterMap_append _ _ _
  refine ⟨happ, ?_, ?_⟩
  · intro names
    rw [fulfillEDSRequest_eq ext cat proxy names id hid]
    exact List.length_filterMap_le _ _
  · intro name
    exact happ [name] [name]

/-- Claim C22, witness: the name of `bookstore-v1` requested twice, with a
malformed name in between, is answered twice. -/
theorem fulfillEDSRequest_independent_witness :
    example_inputs.externals.GetServiceIdentityFromProxyCertificate
        example_inputs.bookbuyer.CertificateCommonName = ("bookbuyer.default", none) ∧
    (fulfillEDSRequest example_inputs.externals example_inputs.catalog example_inputs.bookbuyer
        (some { ResourceNames :=
          ["default/bookstore-v1|80", "foobar"] ++ ["default/bookstore-v1|80"] })).1
      = [(example_inputs.bookstoreV1, [{ IP := "8.8.8.8", Port := 8888 }]),
         (example_inputs.bookstoreV1, [{ IP := "8.8.8.8", Port := 8888 }])] ∧
    (fulfillEDSRequest example_inputs.externals example_inputs.catalog example_inputs.bookbuyer
        (some { ResourceNames := ["default/bookstore-v1|80", "foobar"] })).1.length ≤ 2 :=
  ⟨by decide,
    ((fulfillEDSRequest_independent example_inputs.externals example_inputs.catalog
      example_inputs.bookbuyer "bookbuyer.default" (by decide)).1
      ["default/bookstore-v1|80", "foobar"] ["default/bookstore-v1|80"]).trans (by decide),
    (fulfillEDSRequest_independent example_inputs.externals example_inputs.catalog
      example_inputs.bookbuyer "bookbuyer.default" (by decide)).2.1
      ["default/bookstore-v1|80", "foobar"]⟩

end eds

/-! ## Errors of the route response, sidecar ports and failed issuance: claims C23 to C25 -/

namespace rds

/-- Claim C23: the error that `NewResponse` returns is the error of
`ListServicesForProxy`, whatever `GetProxyStatsHeaders`,
`GetIngressTrafficPolicy` and `GetEgressTrafficPolicy` return: whenever
`ListServicesForProxy` succeeds the returned error is nil, and `NewResponse`
returns an error if and only if `ListServicesForProxy` does. -/
theorem NewResponse_fails_only_on_service_list
    {InboundRoutes OutboundRoutes InboundPolicy EgressRoutes Resource : Type}
    (b : Builders InboundRoutes OutboundRoutes InboundPolicy EgressRoutes Resource)
    (cataloger : MeshCataloger InboundRoutes OutboundRoutes InboundPolicy EgressRoutes)
    (proxy : Proxy) (cm : Manager) :
    (NewResponse b cataloger proxy cm).2 = (cataloger.ListServicesForProxy proxy).2 ∧
    (∀ proxyServices : List MeshService,
      cataloger.ListServicesForProxy proxy = (proxyServices, none) →
      (NewResponse b cataloger proxy cm).2 = none) ∧
    ((NewResponse b cataloger proxy cm).2 ≠ none ↔
      (cataloger.ListServicesForProxy proxy).2 ≠ none) := by
  have h : (NewResponse b cataloger proxy cm).2 = (cataloger.ListServicesForProxy proxy).2 := by
    rcases hsvc : cataloger.ListServicesForProxy proxy with ⟨svcs, _ | err⟩
    · rw [NewResponse_eq b cataloger proxy cm svcs hsvc]
    · rw [NewResponse_services_error b cataloger proxy cm svcs err hsvc]
  refine ⟨h, ?_, ?_⟩
  · intro svcs hsvc
    rw [h, hsvc]
  · rw [h]

/-- Claim C23, witness: the stats headers, every ingress lookup and the egress
lookup fail, the service list is available, and the response carries no
error. -/
theorem NewResponse_fails_only_on_service_list_witness :
    (example_inputs.routeCatalogAllErrors.GetProxyStatsHeaders example_inputs.bookbuyer).2
      = some (Error.external "stats headers failed") ∧
    (example_inputs.routeCatalogAllErrors.GetIngressTrafficPolicy example_inputs.bookstoreV1).2
      = some (Error.external "ingress lookup failed") ∧
    (example_inputs.routeCatalogAllErrors.GetEgressTrafficPolicy
        example_inputs.bookbuyer.Identity).2
      = some (Error.external "egress lookup failed") ∧
    NewResponse example_inputs.builders example_inputs.routeCatalogAllErrors
        example_inputs.bookbuyer example_inputs.manager
      = (["inbound:in@cluster.local", "outbound:out"], none) ∧
    (NewResponse example_inputs.builders example_inputs.routeCatalogAllErrors
        example_inputs.bookbuyer example_inputs.manager).2 = none :=
  ⟨rfl, rfl, rfl, by decide,
    (NewResponse_fails_only_on_service_list example_inputs.builders
      example_inputs.routeCatalogAllErrors example_inputs.bookbuyer
      example_inputs.manager).2.1 _ rfl⟩

end rds

namespace injector

/-- Claim C24: `getGrpcContainerPorts` returns the three fixed ports (admin, inbound
listener, inbound Prometheus listener) first, followed by `liveness-port`,
`readiness-port` and `startup-port` in that order, each present if and only if
the corresponding original probe is not nil; the result has 3 plus the number
of non-nil probes entries, and each of the three probe port names is at most
15 characters long. -/
theorem getGrpcContainerPorts_layout (constants : PortConstants) (probes : healthProbes) :
    getGrpcContainerPorts constants probes
      = [{ Name := constants.EnvoyAdminPortName, ContainerPort := constants.EnvoyAdminPort },
         { Name := constants.EnvoyInboundListenerPortName,
           ContainerPort := constants.EnvoyInboundListenerPort },
         { Name := constants.EnvoyInboundPrometheusListenerPortName,
           ContainerPort := constants.EnvoyPrometheusInboundListenerPort }]
        ++ (if probes.liveness ≠ none then
              [{ Name := "liveness-port", ContainerPort := constants.livenessProbePort }]
            else [])
        ++ (if probes.readiness ≠ none then
              [{ Name := "readiness-port", ContainerPort := constants.readinessProbePort }]
            else [])
        ++ (if probes.startup ≠ none then
              [{ Name := "startup-port", ContainerPort := constants.startupProbePort }]
            else []) ∧
    (getGrpcContainerPorts constants probes).length = 3 + probes.count ∧
    "liveness-port".length ≤ 15 ∧ "readiness-port".length ≤ 15 ∧ "startup-port".length ≤ 15 := by
  obtain ⟨l, r, s⟩ := probes
  refine ⟨?_, ?_, by decide, by decide, by decide⟩
  · cases l <;> cases r <;> cases s <;> rfl
  · cases l <;> cases r <;> cases s <;> rfl

/-- Claim C25: if `IssueCertificate` returns an error, `createPatchProxyless` returns
that error with no patch, leaves the pod as it was and the cluster as it was,
and its result does not depend on the Kubernetes client: no config map and no
secret is written. -/
theorem createPatchProxyless_issue_failure_atomic {σ : Type} (ext : Externals)
    (wh : mutatingWebhook σ) (cluster : σ) (pod : Pod) (req : AdmissionRequest)
    (proxyUUID : String) (cert : Certificate) (err : Error)
    (h : wh.certManager.IssueCertificate
        (ext.NewXDSCertCommonName proxyUUID ext.constants.KindSidecar
          pod.Spec.ServiceAccountName req.Namespace)
        ext.constants.XDSCertificateValidityPeriod = (cert, some err)) :
    (createPatchProxyless ext wh cluster pod req proxyUUID).err = some err ∧
    (createPatchProxyless ext wh cluster pod req proxyUUID).patch = "" ∧
    (createPatchProxyless ext wh cluster pod req proxyUUID).pod = pod ∧
    (createPatchProxyless ext wh cluster pod req proxyUUID).cluster = cluster ∧
    (∀ kubeClient : KubeClient σ,
      createPatchProxyless ext { wh with kubeClient := kubeClient } cluster pod req proxyUUID
        = createPatchProxyless ext wh cluster pod req proxyUUID) := by
  have e := createPatchProxyless_of_issue_error ext wh cluster pod req proxyUUID cert err h
  refine ⟨by rw [e], by rw [e], by rw [e], by rw [e], ?_⟩
  intro kubeClient
  rw [e]
  exact createPatchProxyless_of_issue_error ext { wh with kubeClient := kubeClient } cluster pod
    req proxyUUID cert err h

/-- Claim C25, witness: no certificate is issued for the service account `nobody`;
the pod keeps its volume, containers, init container and label, and the empty
cluster stays empty. -/
theorem createPatchProxyless_issue_failure_atomic_witness :
    example_inputs.webhook.certManager.IssueCertificate
        (example_inputs.injectorExternals.NewXDSCertCommonName "uuid-1"
          example_inputs.injectorExternals.constants.KindSidecar
          example_inputs.nobodyPod.Spec.ServiceAccountName example_inputs.request.Namespace)
        example_inputs.injectorExternals.constants.XDSCertificateValidityPeriod
      = ({ GetCertificateChain := "", GetPrivateKey := "", GetIssuingCA := "" },
          some (Error.external "cannot issue certificate")) ∧
    (createPatchProxyless example_inputs.injectorExternals example_inputs.webhook
      example_inputs.emptyCluster example_inputs.nobodyPod example_inputs.request
      "uuid-1").err = some (Error.external "cannot issue certificate") ∧
    (createPatchProxyless example_inputs.injectorExternals example_inputs.webhook
      example_inputs.emptyCluster example_inputs.nobodyPod example_inputs.request
      "uuid-1").pod = example_inputs.nobodyPod ∧
    (createPatchProxyless example_inputs.injectorExternals example_inputs.webhook
      example_inputs.emptyCluster example_inputs.nobodyPod example_inputs.request
      "uuid-1").cluster = example_inputs.emptyCluster :=
  ⟨by decide,
    (createPatchProxyless_issue_failure_atomic example_inputs.injectorExternals
      example_inputs.webhook example_inputs.emptyCluster example_inputs.nobodyPod
      example_inputs.request "uuid-1"
      { GetCertificateChain := "", GetPrivateKey := "", GetIssuingCA := "" }
      (Error.external "cannot issue certificate") (by decide)).1,
    (createPatchProxyless_issue_failure_atomic example_inputs.injectorExternals
      example_inputs.webhook example_inputs.emptyCluster example_inputs.nobodyPod
      example_inputs.request "uuid-1"
      { GetCertificateChain := "", GetPrivateKey := "", GetIssuingCA := "" }
      (Error.external "cannot issue certificate") (by decide)).2.2.1,
    (createPatchProxyless_issue_failure_atomic example_inputs.injectorExternals
      example_inputs.webhook example_inputs.emptyCluster example_inputs.nobodyPod
      example_inputs.request "uuid-1"
      { GetCertificateChain := "", GetPrivateKey := "", GetIssuingCA := "" }
      (Error.external "cannot issue certificate") (by decide)).2.2.2.1⟩

end injector
